import Mathlib

/-! The PKI hierarchy generator `generate_certs.go`.

A shallow embedding of `generate_certs.go` (root CA, intermediate CA, server and client
certificate, three chain files) and the properties of its specification.

The program is a straight line of calls into the Go standard library. Its own code is
embedded function by function. The library is represented by its documented behaviour:

* every library call that can return an error is recorded in a trace, and an environment
  decides which calls fail (the n-th call of the run fails when `Env.fails n` holds);
  reading a file that is not in the store fails whatever the environment says;
* an RSA key pair is identified by the position of the `rsa.GenerateKey` call that returned
  it (each call returns a newly allocated key) and carries its bit size;
* DER encodings are represented by the abstract syntax they encode; the PEM text of a block
  is an uninterpreted function of the environment;
* a certificate template asks for a path-length constraint as crypto/x509 documents it:
  `MaxPathLen = 0` means a constraint of zero only together with `MaxPathLenZero`;
* `log.Fatalf` ends the process at once: the result `Result.fatal` carries the world at
  that moment, deferred calls are not run.
-/

namespace GenerateCerts

/-! ## Data model -/

abbrev Bytes := List UInt8

abbrev Error := String

/-- Public half of an RSA key pair (`rsa.PublicKey`). -/
structure rsa.PublicKey where
  id : Nat
  bits : Nat
deriving DecidableEq, Repr

/-- An RSA key pair (`rsa.PrivateKey`, which embeds its `PublicKey`). -/
structure rsa.PrivateKey where
  PublicKey : rsa.PublicKey
deriving DecidableEq, Repr

/-- Method `Public()` of a private key. -/
def rsa.PrivateKey.Public (k : rsa.PrivateKey) : rsa.PublicKey := k.PublicKey

/-- A distinguished name (`pkix.Name`); the program sets the common name only. -/
structure Name where
  CommonName : String
deriving DecidableEq, Repr

/-- An instant: a clock reading and the calendar offset added to it with `AddDate`. -/
structure Time where
  reading : Nat
  years : Nat
  months : Nat
  days : Nat
deriving DecidableEq, Repr

def Time.AddDate (t : Time) (years months days : Nat) : Time :=
  { t with years := t.years + years, months := t.months + months, days := t.days + days }

namespace net

/-- An IP address (`net.IP`): a byte slice, empty for `nil`. -/
abbrev IP := List Nat

/-- The 16-byte form of an IPv4 address (`net.IPv4`). -/
def IPv4 (a b c d : Nat) : IP := [0, 0, 0, 0, 0, 0, 0, 0, 0, 0, 0xff, 0xff, a, b, c, d]

/-- One decimal field of a dotted address: one to three digits, no leading zero, at most 255. -/
def parseOctet (cs : List Char) : Option Nat :=
  if cs.length = 0 ∨ 3 < cs.length then none
  else if !cs.all Char.isDigit then none
  else if 1 < cs.length ∧ cs.head? = some '0' then none
  else
    let n := cs.foldl (fun acc c => acc * 10 + (c.toNat - 48)) 0
    if n ≤ 255 then some n else none

/-- Splits a text at every dot. -/
def splitDots : List Char → List (List Char)
  | [] => [[]]
  | c :: cs =>
    match splitDots cs with
    | [] => [[c]]
    | g :: gs => if c = '.' then [] :: g :: gs else (c :: g) :: gs

/-- Function `net.ParseIP` on dotted-decimal IPv4 text; any other text gives `nil`
(IPv6 text is not represented). -/
def ParseIP (s : String) : IP :=
  match (splitDots s.toList).map parseOctet with
  | [some a, some b, some c, some d] => IPv4 a b c d
  | _ => []

end net

namespace x509

/-- Key usage bit set (`x509.KeyUsage`). -/
abbrev KeyUsage := Nat

def KeyUsageDigitalSignature : KeyUsage := 1 <<< 0
def KeyUsageContentCommitment : KeyUsage := 1 <<< 1
def KeyUsageKeyEncipherment : KeyUsage := 1 <<< 2
def KeyUsageDataEncipherment : KeyUsage := 1 <<< 3
def KeyUsageKeyAgreement : KeyUsage := 1 <<< 4
def KeyUsageCertSign : KeyUsage := 1 <<< 5
def KeyUsageCRLSign : KeyUsage := 1 <<< 6
def KeyUsageEncipherOnly : KeyUsage := 1 <<< 7
def KeyUsageDecipherOnly : KeyUsage := 1 <<< 8

/-- Extended key usage (`x509.ExtKeyUsage`). -/
inductive ExtKeyUsage where
  | ExtKeyUsageAny
  | ExtKeyUsageServerAuth
  | ExtKeyUsageClientAuth
  | ExtKeyUsageCodeSigning
  | ExtKeyUsageEmailProtection
  | ExtKeyUsageIPSECEndSystem
  | ExtKeyUsageIPSECTunnel
  | ExtKeyUsageIPSECUser
  | ExtKeyUsageTimeStamping
  | ExtKeyUsageOCSPSigning
  | ExtKeyUsageMicrosoftServerGatedCrypto
  | ExtKeyUsageNetscapeServerGatedCrypto
  | ExtKeyUsageMicrosoftCommercialCodeSigning
  | ExtKeyUsageMicrosoftKernelCodeSigning
deriving DecidableEq, Repr

/-- The fields of `x509.Certificate` the program reads or writes. A struct literal leaves
every field it does not mention at its zero value, which is the default given here. -/
structure Certificate where
  SerialNumber : Int := 0
  Issuer : Name := ⟨""⟩
  Subject : Name := ⟨""⟩
  NotBefore : Time := ⟨0, 0, 0, 0⟩
  NotAfter : Time := ⟨0, 0, 0, 0⟩
  KeyUsage : KeyUsage := 0
  ExtKeyUsage : List ExtKeyUsage := []
  BasicConstraintsValid : Bool := false
  IsCA : Bool := false
  MaxPathLen : Int := 0
  MaxPathLenZero : Bool := false
  DNSNames : List String := []
  IPAddresses : List net.IP := []
  PublicKey : Option rsa.PublicKey := none
deriving DecidableEq, Repr

/-- The basicConstraints extension of an encoded certificate. -/
structure BasicConstraints where
  isCA : Bool
  pathLenConstraint : Option Int
deriving DecidableEq, Repr

/-- An issued certificate as encoded: the signed fields and the key that signed them. -/
structure Signed where
  SerialNumber : Int
  Issuer : Name
  Subject : Name
  NotBefore : Time
  NotAfter : Time
  PublicKey : rsa.PublicKey
  KeyUsage : KeyUsage
  ExtKeyUsage : List ExtKeyUsage
  BasicConstraints : Option BasicConstraints
  DNSNames : List String
  IPAddresses : List net.IP
  SignedBy : rsa.PublicKey
deriving DecidableEq, Repr

/-- The pathLenConstraint that `x509.CreateCertificate` encodes for a template. As the
documentation of `MaxPathLen` and `MaxPathLenZero` says, `MaxPathLen == 0` stands for a
constraint of zero only when `MaxPathLenZero` is set; otherwise, like `-1`, it stands for
no constraint. -/
def pathLenConstraint (template : Certificate) : Option Int :=
  if template.MaxPathLen = 0 ∧ template.MaxPathLenZero = false then none
  else if template.MaxPathLen = -1 then none
  else some template.MaxPathLen

/-- The basicConstraints extension `x509.CreateCertificate` writes: present exactly when the
template sets `BasicConstraintsValid`. -/
def basicConstraints (template : Certificate) : Option BasicConstraints :=
  if template.BasicConstraintsValid then
    some ⟨template.IsCA, pathLenConstraint template⟩
  else none

end x509

/-- A DER byte string, represented by what it encodes. -/
inductive DER where
  | PKCS1PrivateKey (key : rsa.PrivateKey)
  | Certificate (cert : x509.Signed)
deriving DecidableEq, Repr

namespace pem

/-- A PEM block (`pem.Block`). -/
structure Block where
  Type_ : String
  Bytes : DER
deriving DecidableEq, Repr

end pem

/-- A call into the library, with its outcome: `ok = false`, or no result, when it returned
an error. -/
inductive Event where
  | MkdirAll (path : String) (perm : Nat) (ok : Bool)
  | GenerateKey (bits : Nat) (result : Option rsa.PrivateKey)
  | Now
  | CreateCertificate (template parent : x509.Certificate) (pub : rsa.PublicKey)
      (priv : rsa.PrivateKey) (result : Option DER)
  | ParseCertificate (der : DER) (ok : Bool)
  | Create (name : String) (ok : Bool)
  | Encode (name : String) (block : pem.Block) (ok : Bool)
  | ReadFile (name : String) (ok : Bool)
  | Write (name : String) (b : Bytes) (ok : Bool)
deriving DecidableEq, Repr

/-- Whether the call returned an error. -/
def Event.failed : Event → Bool
  | .MkdirAll _ _ ok => !ok
  | .GenerateKey _ result => result.isNone
  | .Now => false
  | .CreateCertificate _ _ _ _ result => result.isNone
  | .ParseCertificate _ ok => !ok
  | .Create _ ok => !ok
  | .Encode _ _ ok => !ok
  | .ReadFile _ ok => !ok
  | .Write _ _ ok => !ok

/-- The files of the machine: the content of every file that exists. -/
abbrev FileStore := String → Option Bytes

def FileStore.set (fs : FileStore) (name : String) (b : Bytes) : FileStore :=
  fun p => if p = name then some b else fs p

/-- The state of the world the program runs in. -/
structure World where
  files : FileStore
  dirs : List String
  ops : List Event
  log : List String

/-- What the program cannot decide: which library calls fail, what the clock reads, how
many bytes a failing write still gets out, and the PEM text of a block. Calls are numbered
by their position in the trace. -/
structure Env where
  fails : Nat → Bool
  now : Nat → Nat
  short : Nat → Nat
  pemEncode : pem.Block → Bytes

/-- The instant the clock shows at the n-th call of the run. -/
def Env.time (env : Env) (n : Nat) : Time := ⟨env.now n, 0, 0, 0⟩

/-- The world at the start of the process: the files and directories that exist, nothing
done or logged yet. -/
def start (files : FileStore) (dirs : List String) : World :=
  { files := files, dirs := dirs, ops := [], log := [] }

/-- Outcome of a piece of the program: it returns, or `log.Fatalf` ended the process. -/
inductive Result (α : Type) where
  | ok (val : α) (w : World)
  | fatal (msg : String) (w : World)

def Result.world {α : Type} : Result α → World
  | .ok _ w => w
  | .fatal _ w => w

def Result.isOk {α : Type} : Result α → Bool
  | .ok _ _ => true
  | .fatal _ _ => false

/-- A piece of the program. -/
def Prog (α : Type) : Type := World → Result α

def Prog.pure {α : Type} (a : α) : Prog α := fun w => .ok a w

def Prog.bind {α β : Type} (p : Prog α) (q : α → Prog β) : Prog β := fun w =>
  match p w with
  | .ok a w1 => q a w1
  | .fatal msg w1 => .fatal msg w1

instance : Monad Prog where
  pure := Prog.pure
  bind := Prog.bind

/-- A library call that cannot fail the program: its result, error included, is handed on. -/
def call {α : Type} (f : World → α × World) : Prog α := fun w =>
  match f w with
  | (a, w1) => .ok a w1

/-- The pattern `x, err := f(...); if err != nil { log.Fatalf(format, err) }`. -/
def orFatalf {α : Type} (f : World → Except Error α × World) (format : Error → String) :
    Prog α := fun w =>
  match f w with
  | (.ok a, w1) => .ok a w1
  | (.error err, w1) => .fatal (format err) w1

/-! ## The library -/

def World.record (w : World) (e : Event) : World := { w with ops := w.ops ++ [e] }

namespace os

structure File where
  name : String
deriving DecidableEq, Repr

/-- Function `os.MkdirAll`: creates the directory, or returns an error. Nothing else in the
model depends on the directory; a missing directory shows as a failing `os.Create`. -/
def MkdirAll (env : Env) (path : String) (perm : Nat) (w : World) : Option Error × World :=
  if env.fails w.ops.length then
    (some ("mkdir " ++ path), w.record (.MkdirAll path perm false))
  else
    (none, { w.record (.MkdirAll path perm true) with
              dirs := if path ∈ w.dirs then w.dirs else path :: w.dirs })

/-- Function `os.Create`: creates the file or truncates it to nothing. -/
def Create (env : Env) (name : String) (w : World) : Except Error File × World :=
  if env.fails w.ops.length then
    (.error ("open " ++ name), w.record (.Create name false))
  else
    (.ok ⟨name⟩, { w.record (.Create name true) with files := w.files.set name [] })

/-- Function `os.ReadFile`: the whole content of the file; an error when the file does not
exist. -/
def ReadFile (env : Env) (name : String) (w : World) : Except Error Bytes × World :=
  match w.files name with
  | none => (.error ("open " ++ name), w.record (.ReadFile name false))
  | some b =>
    if env.fails w.ops.length then
      (.error ("read " ++ name), w.record (.ReadFile name false))
    else
      (.ok b, w.record (.ReadFile name true))

/-- Appends to the file; a failing write may still get a prefix out. -/
def File.append (env : Env) (file : File) (b : Bytes) (w : World) : Bool × FileStore :=
  let old := (w.files file.name).getD []
  if env.fails w.ops.length then
    (false, w.files.set file.name (old ++ b.take (env.short w.ops.length)))
  else
    (true, w.files.set file.name (old ++ b))

/-- Method `(*os.File).Write`: appends the bytes to the file, and returns an error whenever it
wrote fewer bytes than given. -/
def File.Write (env : Env) (file : File) (b : Bytes) (w : World) : Except Error Nat × World :=
  match File.append env file b w with
  | (false, fs) =>
    (.error ("write " ++ file.name), { w.record (.Write file.name b false) with files := fs })
  | (true, fs) =>
    (.ok b.length, { w.record (.Write file.name b true) with files := fs })

end os

namespace pem

/-- Function `pem.Encode`: writes the PEM text of the block to the file. -/
def Encode (env : Env) (out : os.File) (b : Block) (w : World) : Except Error Unit × World :=
  match os.File.append env out (env.pemEncode b) w with
  | (false, fs) =>
    (.error ("write " ++ out.name), { w.record (.Encode out.name b false) with files := fs })
  | (true, fs) =>
    (.ok (), { w.record (.Encode out.name b true) with files := fs })

end pem

namespace rsa

/-- Function `rsa.GenerateKey(rand.Reader, bits)`: a new key pair of the given size. -/
def GenerateKey (env : Env) (bits : Nat) (w : World) : Except Error rsa.PrivateKey × World :=
  if env.fails w.ops.length then
    (.error "crypto/rsa: key generation failed", w.record (.GenerateKey bits none))
  else
    (.ok ⟨⟨w.ops.length, bits⟩⟩, w.record (.GenerateKey bits (some ⟨⟨w.ops.length, bits⟩⟩)))

end rsa

namespace time

/-- Function `time.Now()`. -/
def Now (env : Env) (w : World) : Time × World :=
  (env.time w.ops.length, w.record .Now)

end time

namespace x509

/-- The certificate `x509.CreateCertificate` issues: the fields of the template, the issuer
name taken from the subject of the parent, the given public key, signed with the given private key. -/
def sign (template parent : Certificate) (pub : rsa.PublicKey) (priv : rsa.PrivateKey) : Signed :=
  { SerialNumber := template.SerialNumber
    Issuer := parent.Subject
    Subject := template.Subject
    NotBefore := template.NotBefore
    NotAfter := template.NotAfter
    PublicKey := pub
    KeyUsage := template.KeyUsage
    ExtKeyUsage := template.ExtKeyUsage
    BasicConstraints := basicConstraints template
    DNSNames := template.DNSNames
    IPAddresses := template.IPAddresses
    SignedBy := priv.Public }

/-- Function `x509.CreateCertificate(rand.Reader, template, parent, pub, priv)`. It refuses a private
key that does not match the public key of the parent, when the parent has one. -/
def CreateCertificate (env : Env) (template parent : Certificate) (pub : rsa.PublicKey)
    (priv : rsa.PrivateKey) (w : World) : Except Error DER × World :=
  if env.fails w.ops.length then
    (.error "x509: certificate creation failed",
      w.record (.CreateCertificate template parent pub priv none))
  else if parent.PublicKey ≠ none ∧ parent.PublicKey ≠ some priv.Public then
    (.error "x509: provided PrivateKey does not match the PublicKey of the parent",
      w.record (.CreateCertificate template parent pub priv none))
  else
    (.ok (.Certificate (sign template parent pub priv)),
      w.record (.CreateCertificate template parent pub priv
        (some (.Certificate (sign template parent pub priv)))))

/-- What parsing gives back for an encoded certificate. An absent pathLenConstraint is
reported as `MaxPathLen = -1`, one of zero as `MaxPathLen = 0` with `MaxPathLenZero`. -/
def parsed (c : Signed) : Certificate :=
  { SerialNumber := c.SerialNumber
    Issuer := c.Issuer
    Subject := c.Subject
    NotBefore := c.NotBefore
    NotAfter := c.NotAfter
    KeyUsage := c.KeyUsage
    ExtKeyUsage := c.ExtKeyUsage
    BasicConstraintsValid := c.BasicConstraints.isSome
    IsCA := match c.BasicConstraints with
      | some bc => bc.isCA
      | none => false
    MaxPathLen := match c.BasicConstraints with
      | some bc => bc.pathLenConstraint.getD (-1)
      | none => -1
    MaxPathLenZero := match c.BasicConstraints with
      | some bc => decide (bc.pathLenConstraint = some 0)
      | none => false
    DNSNames := c.DNSNames
    IPAddresses := c.IPAddresses
    PublicKey := some c.PublicKey }

/-- Function `x509.ParseCertificate`. -/
def ParseCertificate (env : Env) (der : DER) (w : World) : Except Error Certificate × World :=
  if env.fails w.ops.length then
    (.error "x509: malformed certificate", w.record (.ParseCertificate der false))
  else
    match der with
    | .Certificate c => (.ok (parsed c), w.record (.ParseCertificate der true))
    | .PKCS1PrivateKey _ =>
      (.error "x509: malformed certificate", w.record (.ParseCertificate der false))

/-- Function `x509.MarshalPKCS1PrivateKey`. -/
def MarshalPKCS1PrivateKey (key : rsa.PrivateKey) : DER := .PKCS1PrivateKey key

end x509

namespace log

/-- Function `log.Println`: one more line in the log. -/
def Println (msg : String) : Prog Unit := fun w => .ok () { w with log := w.log ++ [msg] }

end log

/-! ## The program -/

def savePrivateKey (env : Env) (privateKey : rsa.PrivateKey) (filename : String) : Prog Unit := do
  let file ← orFatalf (os.Create env filename)
    (fun err => "Failed to create private key file " ++ filename ++ ": " ++ err)
  orFatalf (pem.Encode env file
      { Type_ := "RSA PRIVATE KEY", Bytes := x509.MarshalPKCS1PrivateKey privateKey })
    (fun err => "Failed to write private key to " ++ filename ++ ": " ++ err)

def saveCertificate (env : Env) (derBytes : DER) (filename : String) : Prog Unit := do
  let file ← orFatalf (os.Create env filename)
    (fun err => "Failed to create certificate file " ++ filename ++ ": " ++ err)
  orFatalf (pem.Encode env file { Type_ := "CERTIFICATE", Bytes := derBytes })
    (fun err => "Failed to write certificate to " ++ filename ++ ": " ++ err)

def createServerChain (env : Env) : Prog Unit := do
  let serverCert ← orFatalf (os.ReadFile env "certs/server.crt")
    (fun err => "Failed to read server certificate: " ++ err)
  let intermediateCert ← orFatalf (os.ReadFile env "certs/intermediateCA.crt")
    (fun err => "Failed to read intermediate certificate: " ++ err)
  let chainFile ← orFatalf (os.Create env "certs/server-chain.crt")
    (fun err => "Failed to create server chain file: " ++ err)
  let _ ← orFatalf (os.File.Write env chainFile serverCert)
    (fun err => "Failed to write server cert to chain file: " ++ err)
  let _ ← orFatalf (os.File.Write env chainFile intermediateCert)
    (fun err => "Failed to write intermediate cert to chain file: " ++ err)
  return ()

def createClientChain (env : Env) : Prog Unit := do
  let clientCert ← orFatalf (os.ReadFile env "certs/client.crt")
    (fun err => "Failed to read client certificate: " ++ err)
  let intermediateCert ← orFatalf (os.ReadFile env "certs/intermediateCA.crt")
    (fun err => "Failed to read intermediate certificate: " ++ err)
  let chainFile ← orFatalf (os.Create env "certs/client-chain.crt")
    (fun err => "Failed to create client chain file: " ++ err)
  let _ ← orFatalf (os.File.Write env chainFile clientCert)
    (fun err => "Failed to write client cert to chain file: " ++ err)
  let _ ← orFatalf (os.File.Write env chainFile intermediateCert)
    (fun err => "Failed to write intermediate cert to chain file: " ++ err)
  return ()

def createCAChain (env : Env) (_rootCert _intermediateCert : x509.Certificate) :
    Prog Unit := do
  let rootCertPEM ← orFatalf (os.ReadFile env "certs/rootCA.crt")
    (fun err => "Failed to read root certificate: " ++ err)
  let intermediateCertPEM ← orFatalf (os.ReadFile env "certs/intermediateCA.crt")
    (fun err => "Failed to read intermediate certificate: " ++ err)
  let caChainFile ← orFatalf (os.Create env "certs/ca-chain.crt")
    (fun err => "Failed to create CA chain file: " ++ err)
  let _ ← orFatalf (os.File.Write env caChainFile rootCertPEM)
    (fun err => "Failed to write root cert to CA chain file: " ++ err)
  let _ ← orFatalf (os.File.Write env caChainFile intermediateCertPEM)
    (fun err => "Failed to write intermediate cert to CA chain file: " ++ err)
  return ()

/-- The template of the root certificate; the two arguments are the two clock readings. -/
def rootTemplate (now1 now2 : Time) : x509.Certificate :=
  { SerialNumber := 1
    Subject := { CommonName := "MyRootCA" }
    NotBefore := now1
    NotAfter := now2.AddDate 10 0 0
    KeyUsage := x509.KeyUsageCertSign ||| x509.KeyUsageCRLSign ||| x509.KeyUsageDigitalSignature
    BasicConstraintsValid := true
    IsCA := true
    MaxPathLen := 2 }

def intermediateTemplate (now1 now2 : Time) : x509.Certificate :=
  { SerialNumber := 2
    Subject := { CommonName := "MyIntermediateCA" }
    NotBefore := now1
    NotAfter := now2.AddDate 5 0 0
    KeyUsage := x509.KeyUsageCertSign ||| x509.KeyUsageCRLSign ||| x509.KeyUsageDigitalSignature
    BasicConstraintsValid := true
    IsCA := true
    MaxPathLen := 0 }

def serverTemplate (now1 now2 : Time) : x509.Certificate :=
  { SerialNumber := 3
    Subject := { CommonName := "localhost" }
    NotBefore := now1
    NotAfter := now2.AddDate 2 0 0
    KeyUsage := x509.KeyUsageDigitalSignature ||| x509.KeyUsageKeyEncipherment
    ExtKeyUsage := [x509.ExtKeyUsage.ExtKeyUsageServerAuth]
    DNSNames := ["localhost"]
    IPAddresses := [net.ParseIP "127.0.0.1"] }

def clientTemplate (now1 now2 : Time) : x509.Certificate :=
  { SerialNumber := 4
    Subject := { CommonName := "client" }
    NotBefore := now1
    NotAfter := now2.AddDate 2 0 0
    KeyUsage := x509.KeyUsageDigitalSignature ||| x509.KeyUsageKeyEncipherment
    ExtKeyUsage := [x509.ExtKeyUsage.ExtKeyUsageClientAuth] }

def createRootCA (env : Env) : Prog (rsa.PrivateKey × x509.Certificate) := do
  let rootKey ← orFatalf (rsa.GenerateKey env 4096)
    (fun err => "Failed to generate root private key: " ++ err)
  savePrivateKey env rootKey "certs/rootCA.key"
  let now1 ← call (time.Now env)
  let now2 ← call (time.Now env)
  let rootTemplate := rootTemplate now1 now2
  let rootCertDER ← orFatalf
    (x509.CreateCertificate env rootTemplate rootTemplate rootKey.PublicKey rootKey)
    (fun err => "Failed to create root certificate: " ++ err)
  saveCertificate env rootCertDER "certs/rootCA.crt"
  let rootCert ← orFatalf (x509.ParseCertificate env rootCertDER)
    (fun err => "Failed to parse root certificate: " ++ err)
  log.Println "Root CA created successfully"
  return (rootKey, rootCert)

def createIntermediateCA (env : Env) (rootKey : rsa.PrivateKey) (rootCert : x509.Certificate) :
    Prog (rsa.PrivateKey × x509.Certificate) := do
  let intermediateKey ← orFatalf (rsa.GenerateKey env 4096)
    (fun err => "Failed to generate intermediate private key: " ++ err)
  savePrivateKey env intermediateKey "certs/intermediateCA.key"
  let now1 ← call (time.Now env)
  let now2 ← call (time.Now env)
  let intermediateTemplate := intermediateTemplate now1 now2
  let intermediateCertDER ← orFatalf
    (x509.CreateCertificate env intermediateTemplate rootCert intermediateKey.PublicKey rootKey)
    (fun err => "Failed to create intermediate certificate: " ++ err)
  saveCertificate env intermediateCertDER "certs/intermediateCA.crt"
  let intermediateCert ← orFatalf (x509.ParseCertificate env intermediateCertDER)
    (fun err => "Failed to parse intermediate certificate: " ++ err)
  log.Println "Intermediate CA created successfully"
  return (intermediateKey, intermediateCert)

def createServerCertificate (env : Env) (intermediateKey : rsa.PrivateKey)
    (intermediateCert : x509.Certificate) : Prog Unit := do
  let serverKey ← orFatalf (rsa.GenerateKey env 2048)
    (fun err => "Failed to generate server private key: " ++ err)
  savePrivateKey env serverKey "certs/server.key"
  let now1 ← call (time.Now env)
  let now2 ← call (time.Now env)
  let serverTemplate := serverTemplate now1 now2
  let serverCertDER ← orFatalf
    (x509.CreateCertificate env serverTemplate intermediateCert serverKey.PublicKey
      intermediateKey)
    (fun err => "Failed to create server certificate: " ++ err)
  saveCertificate env serverCertDER "certs/server.crt"
  createServerChain env
  log.Println "Server certificate created successfully"

def createClientCertificate (env : Env) (intermediateKey : rsa.PrivateKey)
    (intermediateCert : x509.Certificate) : Prog Unit := do
  let clientKey ← orFatalf (rsa.GenerateKey env 2048)
    (fun err => "Failed to generate client private key: " ++ err)
  savePrivateKey env clientKey "certs/client.key"
  let now1 ← call (time.Now env)
  let now2 ← call (time.Now env)
  let clientTemplate := clientTemplate now1 now2
  let clientCertDER ← orFatalf
    (x509.CreateCertificate env clientTemplate intermediateCert clientKey.PublicKey
      intermediateKey)
    (fun err => "Failed to create client certificate: " ++ err)
  saveCertificate env clientCertDER "certs/client.crt"
  createClientChain env
  log.Println "Client certificate created successfully"

def main (env : Env) : Prog Unit := do
  let _ ← call (os.MkdirAll env "certs" 0o755)
  let (rootKey, rootCert) ← createRootCA env
  let (intermediateKey, intermediateCert) ← createIntermediateCA env rootKey rootCert
  createServerCertificate env intermediateKey intermediateCert
  createClientCertificate env intermediateKey intermediateCert
  createCAChain env rootCert intermediateCert
  log.Println "Certificate generation complete!"

/-- A whole run of the program, from the start of the process. -/
def run (env : Env) (files : FileStore) (dirs : List String) : Result Unit :=
  main env (start files dirs)

/-! ## What a run leaves in the trace -/

/-- The certificates issued so far: the results of the signing calls that succeeded. -/
def World.issued (w : World) : List x509.Signed :=
  w.ops.filterMap fun e => match e with
    | .CreateCertificate _ _ _ _ (some (.Certificate c)) => some c
    | _ => none

/-- The signing calls that succeeded: for each one the subject of the certificate passed as
issuer and the public half of the private key passed to sign. -/
def World.signings (w : World) : List (Name × rsa.PublicKey) :=
  w.ops.filterMap fun e => match e with
    | .CreateCertificate _ parent _ priv (some _) => some (parent.Subject, priv.Public)
    | _ => none

/-- The templates passed to the signing calls so far, failed calls included. -/
def World.templates (w : World) : List x509.Certificate :=
  w.ops.filterMap fun e => match e with
    | .CreateCertificate template _ _ _ _ => some template
    | _ => none

/-- The key pairs generated so far. -/
def World.generated (w : World) : List rsa.PrivateKey :=
  w.ops.filterMap fun e => match e with
    | .GenerateKey _ (some k) => some k
    | _ => none

/-- The sizes asked for in the key-generation calls so far, failed calls included. -/
def World.keyRequests (w : World) : List Nat :=
  w.ops.filterMap fun e => match e with
    | .GenerateKey bits _ => some bits
    | _ => none

/-! ## The role policy table of the specification -/

/-- The four roles of the hierarchy. -/
inductive Role where
  | root
  | intermediate
  | server
  | client
deriving DecidableEq, Repr

/-- The usage fields of a certificate. -/
structure Usage where
  KeyUsage : x509.KeyUsage
  ExtKeyUsage : List x509.ExtKeyUsage
  IsCA : Bool
  DNSNames : List String
  IPAddresses : List net.IP
deriving DecidableEq, Repr

/-- The usage fields a template carries. -/
def usageOf (c : x509.Certificate) : Usage :=
  { KeyUsage := c.KeyUsage
    ExtKeyUsage := c.ExtKeyUsage
    IsCA := c.IsCA
    DNSNames := c.DNSNames
    IPAddresses := c.IPAddresses }

/-- The role policy table, row by row as the specification gives it. -/
def rolePolicy : Role → Usage
  | .root =>
    { KeyUsage := x509.KeyUsageCertSign ||| x509.KeyUsageCRLSign ||| x509.KeyUsageDigitalSignature
      ExtKeyUsage := []
      IsCA := true
      DNSNames := []
      IPAddresses := [] }
  | .intermediate =>
    { KeyUsage := x509.KeyUsageCertSign ||| x509.KeyUsageCRLSign ||| x509.KeyUsageDigitalSignature
      ExtKeyUsage := []
      IsCA := true
      DNSNames := []
      IPAddresses := [] }
  | .server =>
    { KeyUsage := x509.KeyUsageDigitalSignature ||| x509.KeyUsageKeyEncipherment
      ExtKeyUsage := [x509.ExtKeyUsage.ExtKeyUsageServerAuth]
      IsCA := false
      DNSNames := ["localhost"]
      IPAddresses := [net.IPv4 127 0 0 1] }
  | .client =>
    { KeyUsage := x509.KeyUsageDigitalSignature ||| x509.KeyUsageKeyEncipherment
      ExtKeyUsage := [x509.ExtKeyUsage.ExtKeyUsageClientAuth]
      IsCA := false
      DNSNames := []
      IPAddresses := [] }

/-! ## The steps of a run -/

/-- The steps of a run, in the order of the specification. The server step includes
`server-chain.crt`, the client step `client-chain.crt`. -/
inductive Step where
  | root
  | intermediate
  | server
  | client
  | caChain
deriving DecidableEq, Repr

def Step.order : Step → Nat
  | .root => 0
  | .intermediate => 1
  | .server => 2
  | .client => 3
  | .caChain => 4

/-- The files a step writes. -/
def Step.outputs : Step → List String
  | .root => ["certs/rootCA.key", "certs/rootCA.crt"]
  | .intermediate => ["certs/intermediateCA.key", "certs/intermediateCA.crt"]
  | .server => ["certs/server.key", "certs/server.crt", "certs/server-chain.crt"]
  | .client => ["certs/client.key", "certs/client.crt", "certs/client-chain.crt"]
  | .caChain => ["certs/ca-chain.crt"]

/-- The step in which `main` ends the process, if it does: the steps are run as `main` runs
them, each in the world the one before left. -/
def failedStep (env : Env) (w : World) : Option Step :=
  match createRootCA env (os.MkdirAll env "certs" 0o755 w).2 with
  | .fatal _ _ => some .root
  | .ok (rootKey, rootCert) w1 =>
    match createIntermediateCA env rootKey rootCert w1 with
    | .fatal _ _ => some .intermediate
    | .ok (intermediateKey, intermediateCert) w2 =>
      match createServerCertificate env intermediateKey intermediateCert w2 with
      | .fatal _ _ => some .server
      | .ok _ w3 =>
        match createClientCertificate env intermediateKey intermediateCert w3 with
        | .fatal _ _ => some .client
        | .ok _ w4 =>
          match createCAChain env rootCert intermediateCert w4 with
          | .fatal _ _ => some .caChain
          | .ok _ _ => none

/-- The line that opens a PEM certificate block. -/
def pemCertificateBegin : Bytes :=
  "-----BEGIN CERTIFICATE-----".toList.map (fun c => c.toNat.toUInt8)

/-- Whether the opening line of a PEM certificate block occurs in the bytes. Bytes in which it
does not occur hold no PEM certificate. -/
def containsPEMCertificate (b : Bytes) : Bool :=
  b.tails.any (fun t => pemCertificateBegin.isPrefixOf t)

/-- The piece of program writes to no file outside the listed ones, whether it returns or
ends the process. -/
def Touches {α : Type} (S : List String) (p : Prog α) : Prop :=
  ∀ w name, name ∉ S → (p w).world.files name = w.files name

/-- Whether the call is a call of `os.MkdirAll`. -/
def Event.isMkdirAll : Event → Bool
  | .MkdirAll _ _ _ => true
  | _ => false

/-- No call in the trace has failed, calls of `os.MkdirAll` apart. -/
def World.clean (w : World) : Prop :=
  ∀ e ∈ w.ops, e.failed = true → e.isMkdirAll = true

/-- The piece of program stops at the first call that fails, calls of `os.MkdirAll` apart:
from a clean trace it returns with a clean trace, or it ends the process with a trace that
is clean up to its last call. -/
def Checked {α : Type} (p : Prog α) : Prop :=
  ∀ w, w.clean →
    match p w with
    | .ok _ w1 => w1.clean
    | .fatal _ w1 => ∃ init e, w1.ops = init ++ [e] ∧
        ∀ e1 ∈ init, e1.failed = true → e1.isMkdirAll = true

/-! ## Sample inputs -/

namespace Sample

/-- An environment in which exactly the calls at the listed positions fail. -/
def env (failing : List Nat) : Env :=
  { fails := fun n => decide (n ∈ failing)
    now := fun n => 1000 + n
    short := fun _ => 0
    pemEncode := fun b => match b.Bytes with
      | .PKCS1PrivateKey k => [75, k.PublicKey.id.toUInt8]
      | .Certificate c => [67, c.SerialNumber.toNat.toUInt8] }

/-- No file exists. -/
def noFiles : FileStore := fun _ => none

/-- The files an earlier run left. -/
def oldFiles : FileStore := fun p =>
  if p ∈ ["certs/rootCA.key", "certs/rootCA.crt", "certs/intermediateCA.key",
      "certs/intermediateCA.crt", "certs/server.key", "certs/server.crt",
      "certs/server-chain.crt", "certs/client.key", "certs/client.crt",
      "certs/client-chain.crt", "certs/ca-chain.crt"] then some [111] else none

/-- The certificate files are there and `intermediateCA.crt` holds the given bytes. -/
def withIntermediate (b : Bytes) : FileStore := fun p =>
  if p = "certs/intermediateCA.crt" then some b
  else if p = "certs/rootCA.crt" then some [67, 1]
  else if p = "certs/server.crt" then some [67, 3]
  else if p = "certs/client.crt" then some [67, 4]
  else none

/-- Certificates and chain files are there, `intermediateCA.crt` is not. -/
def withoutIntermediate : FileStore := fun p =>
  if p = "certs/rootCA.crt" then some [67, 1]
  else if p = "certs/server.crt" then some [67, 3]
  else if p = "certs/client.crt" then some [67, 4]
  else if p ∈ ["certs/server-chain.crt", "certs/client-chain.crt", "certs/ca-chain.crt"] then
    some [111]
  else none

/-- The world in which chain assembly finds no `intermediateCA.crt`. -/
def bare : World := start withoutIntermediate []

/-- The world in which `intermediateCA.crt` holds three stray bytes. -/
def stray : World := start (withIntermediate [88, 88, 88]) []

/-- The environment in which no call fails. -/
def calm : Env := env []

/-- The world after the run in which no call fails, started with no files. -/
def fresh : World := (run calm noFiles []).world

/-- The world after the run in which no call fails, started on the files of an earlier run. -/
def renewed : World := (run calm oldFiles []).world

end Sample

/-- The calls of one issuance when none fails: generate the key, save it, read the clock
twice, sign, save the certificate. -/
def issueTrace (n bits : Nat) (keyFile certFile : String) (template parent : x509.Certificate)
    (signer : rsa.PrivateKey) : List Event :=
  [ .GenerateKey bits (some ⟨⟨n, bits⟩⟩),
    .Create keyFile true,
    .Encode keyFile ⟨"RSA PRIVATE KEY", .PKCS1PrivateKey ⟨⟨n, bits⟩⟩⟩ true,
    .Now, .Now,
    .CreateCertificate template parent ⟨n, bits⟩ signer
      (some (.Certificate (x509.sign template parent ⟨n, bits⟩ signer))),
    .Create certFile true,
    .Encode certFile ⟨"CERTIFICATE", .Certificate (x509.sign template parent ⟨n, bits⟩ signer)⟩
      true ]

/-- The calls of one chain assembly when none fails. -/
def chainTrace (first second out : String) (a b : Bytes) : List Event :=
  [ .ReadFile first true, .ReadFile second true, .Create out true,
    .Write out a true, .Write out b true ]

/-! ## The run in which no call fails -/

namespace Complete

/-- The root key pair: the result of the call at position 1, after `os.MkdirAll`. -/
def rootKey : rsa.PrivateKey := ⟨⟨1, 4096⟩⟩

/-- The intermediate key pair, generated at position 10. -/
def intermediateKey : rsa.PrivateKey := ⟨⟨10, 4096⟩⟩

/-- The server key pair, generated at position 19. -/
def serverKey : rsa.PrivateKey := ⟨⟨19, 2048⟩⟩

/-- The client key pair, generated at position 32. -/
def clientKey : rsa.PrivateKey := ⟨⟨32, 2048⟩⟩

/-- The root certificate: the root template signed under itself with the root key. -/
def rootCert (env : Env) : x509.Signed :=
  x509.sign (rootTemplate (env.time 4) (env.time 5)) (rootTemplate (env.time 4) (env.time 5))
    rootKey.PublicKey rootKey

/-- The intermediate certificate: issued under the parsed root certificate with the root
key. -/
def intermediateCert (env : Env) : x509.Signed :=
  x509.sign (intermediateTemplate (env.time 13) (env.time 14)) (x509.parsed (rootCert env))
    intermediateKey.PublicKey rootKey

/-- The server certificate: issued under the parsed intermediate certificate with the
intermediate key. -/
def serverCert (env : Env) : x509.Signed :=
  x509.sign (serverTemplate (env.time 22) (env.time 23)) (x509.parsed (intermediateCert env))
    serverKey.PublicKey intermediateKey

/-- The client certificate: issued under the parsed intermediate certificate with the
intermediate key. -/
def clientCert (env : Env) : x509.Signed :=
  x509.sign (clientTemplate (env.time 35) (env.time 36)) (x509.parsed (intermediateCert env))
    clientKey.PublicKey intermediateKey

/-- The content of a key file. -/
def pemKey (env : Env) (k : rsa.PrivateKey) : Bytes :=
  env.pemEncode ⟨"RSA PRIVATE KEY", .PKCS1PrivateKey k⟩

/-- The content of a certificate file. -/
def pemCert (env : Env) (c : x509.Signed) : Bytes :=
  env.pemEncode ⟨"CERTIFICATE", .Certificate c⟩

/-- The files after the run. -/
def files (env : Env) (fs : FileStore) : FileStore :=
  ((((((((((fs.set "certs/rootCA.key" (pemKey env rootKey)).set
    "certs/rootCA.crt" (pemCert env (rootCert env))).set
    "certs/intermediateCA.key" (pemKey env intermediateKey)).set
    "certs/intermediateCA.crt" (pemCert env (intermediateCert env))).set
    "certs/server.key" (pemKey env serverKey)).set
    "certs/server.crt" (pemCert env (serverCert env))).set
    "certs/server-chain.crt" (pemCert env (serverCert env) ++ pemCert env (intermediateCert env))).set
    "certs/client.key" (pemKey env clientKey)).set
    "certs/client.crt" (pemCert env (clientCert env))).set
    "certs/client-chain.crt" (pemCert env (clientCert env) ++ pemCert env (intermediateCert env))).set
    "certs/ca-chain.crt" (pemCert env (rootCert env) ++ pemCert env (intermediateCert env))

/-- The trace of the run. -/
def trace (env : Env) : List Event :=
  [.MkdirAll "certs" 0o755 (!env.fails 0)] ++
  issueTrace 1 4096 "certs/rootCA.key" "certs/rootCA.crt"
    (rootTemplate (env.time 4) (env.time 5)) (rootTemplate (env.time 4) (env.time 5)) rootKey ++
  [.ParseCertificate (.Certificate (rootCert env)) true] ++
  issueTrace 10 4096 "certs/intermediateCA.key" "certs/intermediateCA.crt"
    (intermediateTemplate (env.time 13) (env.time 14)) (x509.parsed (rootCert env)) rootKey ++
  [.ParseCertificate (.Certificate (intermediateCert env)) true] ++
  issueTrace 19 2048 "certs/server.key" "certs/server.crt"
    (serverTemplate (env.time 22) (env.time 23)) (x509.parsed (intermediateCert env))
    intermediateKey ++
  chainTrace "certs/server.crt" "certs/intermediateCA.crt" "certs/server-chain.crt"
    (pemCert env (serverCert env)) (pemCert env (intermediateCert env)) ++
  issueTrace 32 2048 "certs/client.key" "certs/client.crt"
    (clientTemplate (env.time 35) (env.time 36)) (x509.parsed (intermediateCert env))
    intermediateKey ++
  chainTrace "certs/client.crt" "certs/intermediateCA.crt" "certs/client-chain.crt"
    (pemCert env (clientCert env)) (pemCert env (intermediateCert env)) ++
  chainTrace "certs/rootCA.crt" "certs/intermediateCA.crt" "certs/ca-chain.crt"
    (pemCert env (rootCert env)) (pemCert env (intermediateCert env))

end Complete

/-! ## Reasoning about pieces of the program -/

@[simp]
theorem bind_apply {α β : Type} (p : Prog α) (q : α → Prog β) (w : World) :
    (p >>= q) w = match p w with
      | .ok a w1 => q a w1
      | .fatal msg w1 => .fatal msg w1 := rfl

@[simp]
theorem pure_apply {α : Type} (a : α) (w : World) : (pure a : Prog α) w = .ok a w := rfl

theorem bind_eq_ok {α β : Type} {p : Prog α} {q : α → Prog β} {w w2 : World} {b : β} :
    (p >>= q) w = .ok b w2 ↔ ∃ a w1, p w = .ok a w1 ∧ q a w1 = .ok b w2 := by
  simp only [bind_apply]
  cases h : p w with
  | ok a w1 =>
    constructor
    · intro hq
      exact ⟨a, w1, rfl, hq⟩
    · rintro ⟨a1, w3, hp, hq⟩
      cases hp
      exact hq
  | fatal msg w1 => simp

theorem orFatalf_eq_ok {α : Type} {f : World → Except Error α × World} {format : Error → String}
    {w w1 : World} {a : α} : orFatalf f format w = .ok a w1 ↔ f w = (.ok a, w1) := by
  unfold orFatalf
  rcases h : f w with ⟨r, w2⟩
  cases r <;> simp

theorem call_eq_ok {α : Type} {f : World → α × World} {w w1 : World} {a : α} :
    call f w = .ok a w1 ↔ f w = (a, w1) := by
  unfold call
  rcases h : f w with ⟨r, w2⟩
  simp

theorem GenerateKey_eq_ok {env : Env} {bits : Nat} {w w1 : World} {k : rsa.PrivateKey} :
    rsa.GenerateKey env bits w = (.ok k, w1) ↔
      env.fails w.ops.length = false ∧ k = ⟨⟨w.ops.length, bits⟩⟩ ∧
      w1 = ⟨w.files, w.dirs, w.ops ++ [.GenerateKey bits (some ⟨⟨w.ops.length, bits⟩⟩)], w.log⟩ := by
  cases hf : env.fails w.ops.length <;> simp [rsa.GenerateKey, World.record, hf]
  constructor <;> rintro ⟨rfl, rfl⟩ <;> exact ⟨rfl, rfl⟩

theorem Create_eq_ok {env : Env} {name : String} {w w1 : World} {f : os.File} :
    os.Create env name w = (.ok f, w1) ↔
      env.fails w.ops.length = false ∧ f = ⟨name⟩ ∧
      w1 = ⟨w.files.set name [], w.dirs, w.ops ++ [.Create name true], w.log⟩ := by
  cases hf : env.fails w.ops.length <;> simp [os.Create, World.record, hf]
  constructor <;> rintro ⟨rfl, rfl⟩ <;> exact ⟨rfl, rfl⟩

theorem Encode_eq_ok {env : Env} {out : os.File} {b : pem.Block} {w w1 : World} {u : Unit} :
    pem.Encode env out b w = (.ok u, w1) ↔
      env.fails w.ops.length = false ∧
      w1 = ⟨w.files.set out.name ((w.files out.name).getD [] ++ env.pemEncode b), w.dirs,
        w.ops ++ [.Encode out.name b true], w.log⟩ := by
  cases hf : env.fails w.ops.length <;> simp [pem.Encode, os.File.append, World.record, hf]
  exact eq_comm

theorem Write_eq_ok {env : Env} {file : os.File} {b : Bytes} {w w1 : World} {n : Nat} :
    os.File.Write env file b w = (.ok n, w1) ↔
      env.fails w.ops.length = false ∧ n = b.length ∧
      w1 = ⟨w.files.set file.name ((w.files file.name).getD [] ++ b), w.dirs,
        w.ops ++ [.Write file.name b true], w.log⟩ := by
  cases hf : env.fails w.ops.length <;> simp [os.File.Write, os.File.append, World.record, hf]
  constructor <;> rintro ⟨rfl, rfl⟩ <;> exact ⟨rfl, rfl⟩

theorem ReadFile_eq_ok {env : Env} {name : String} {w w1 : World} {b : Bytes} :
    os.ReadFile env name w = (.ok b, w1) ↔
      w.files name = some b ∧ env.fails w.ops.length = false ∧
      w1 = ⟨w.files, w.dirs, w.ops ++ [.ReadFile name true], w.log⟩ := by
  cases hf : env.fails w.ops.length <;> cases hr : w.files name <;>
    simp [os.ReadFile, World.record, hf, hr]
  intro _
  exact eq_comm

theorem Now_eq {env : Env} {w w1 : World} {t : Time} :
    time.Now env w = (t, w1) ↔
      t = env.time w.ops.length ∧
      w1 = ⟨w.files, w.dirs, w.ops ++ [.Now], w.log⟩ := by
  simp [time.Now, World.record]
  constructor <;> rintro ⟨rfl, rfl⟩ <;> exact ⟨rfl, rfl⟩

theorem CreateCertificate_eq_ok {env : Env} {template parent : x509.Certificate}
    {pub : rsa.PublicKey} {priv : rsa.PrivateKey} {w w1 : World} {der : DER} :
    x509.CreateCertificate env template parent pub priv w = (.ok der, w1) ↔
      env.fails w.ops.length = false ∧
      ¬ (parent.PublicKey ≠ none ∧ parent.PublicKey ≠ some priv.Public) ∧
      der = .Certificate (x509.sign template parent pub priv) ∧
      w1 = ⟨w.files, w.dirs, w.ops ++ [.CreateCertificate template parent pub priv
        (some (.Certificate (x509.sign template parent pub priv)))], w.log⟩ := by
  unfold x509.CreateCertificate World.record
  split_ifs with h1 h2
  · simp [h1]
  · have h3 : env.fails w.ops.length = false := by simpa using h1
    simp only [h3, true_and, not_true_eq_false, false_and, h2]
    simp
    intro h4
    exact absurd (h4 h2.1) h2.2
  · have h3 : env.fails w.ops.length = false := by simpa using h1
    simp only [h3, true_and, h2, not_false_eq_true, Prod.mk.injEq, Except.ok.injEq]
    constructor <;> rintro ⟨rfl, rfl⟩ <;> exact ⟨rfl, rfl⟩

theorem ParseCertificate_eq_ok {env : Env} {der : DER} {w w1 : World} {c : x509.Certificate} :
    x509.ParseCertificate env der w = (.ok c, w1) ↔
      env.fails w.ops.length = false ∧
      ∃ s, der = .Certificate s ∧ c = x509.parsed s ∧
      w1 = ⟨w.files, w.dirs, w.ops ++ [.ParseCertificate der true], w.log⟩ := by
  cases hf : env.fails w.ops.length <;> cases der <;>
    simp [x509.ParseCertificate, World.record, hf]
  constructor <;> rintro ⟨rfl, rfl⟩ <;> exact ⟨rfl, rfl⟩

theorem Println_eq_ok {msg : String} {w w1 : World} {u : Unit} :
    log.Println msg w = .ok u w1 ↔ w1 = ⟨w.files, w.dirs, w.ops, w.log ++ [msg]⟩ := by
  simp [log.Println]
  exact eq_comm

@[simp]
theorem FileStore.set_same (fs : FileStore) (name : String) (b : Bytes) :
    fs.set name b name = some b := by
  simp [FileStore.set]

@[simp]
theorem FileStore.set_set (fs : FileStore) (name : String) (a b : Bytes) :
    (fs.set name a).set name b = fs.set name b := by
  funext p
  simp only [FileStore.set]
  split <;> rfl

@[simp]
theorem FileStore.set_apply (fs : FileStore) (name p : String) (b : Bytes) :
    fs.set name b p = if p = name then some b else fs p := rfl

theorem savePrivateKey_eq_ok {env : Env} {key : rsa.PrivateKey} {filename : String}
    {w w1 : World} {u : Unit} :
    savePrivateKey env key filename w = .ok u w1 ↔
      env.fails w.ops.length = false ∧ env.fails (w.ops.length + 1) = false ∧
      w1 = ⟨w.files.set filename (env.pemEncode ⟨"RSA PRIVATE KEY", .PKCS1PrivateKey key⟩),
        w.dirs,
        w.ops ++ [.Create filename true,
          .Encode filename ⟨"RSA PRIVATE KEY", .PKCS1PrivateKey key⟩ true],
        w.log⟩ := by
  simp only [savePrivateKey, bind_eq_ok, orFatalf_eq_ok, Create_eq_ok, Encode_eq_ok]
  simp [x509.MarshalPKCS1PrivateKey, and_assoc]

theorem saveCertificate_eq_ok {env : Env} {der : DER} {filename : String}
    {w w1 : World} {u : Unit} :
    saveCertificate env der filename w = .ok u w1 ↔
      env.fails w.ops.length = false ∧ env.fails (w.ops.length + 1) = false ∧
      w1 = ⟨w.files.set filename (env.pemEncode ⟨"CERTIFICATE", der⟩),
        w.dirs,
        w.ops ++ [.Create filename true, .Encode filename ⟨"CERTIFICATE", der⟩ true],
        w.log⟩ := by
  simp only [saveCertificate, bind_eq_ok, orFatalf_eq_ok, Create_eq_ok, Encode_eq_ok]
  simp [and_assoc]

theorem MkdirAll_eq {env : Env} {path : String} {perm : Nat} {w w1 : World}
    {r : Option Error} :
    os.MkdirAll env path perm w = (r, w1) ↔
      r = (if env.fails w.ops.length then some ("mkdir " ++ path) else none) ∧
      w1 = ⟨w.files,
        if env.fails w.ops.length then w.dirs
        else if path ∈ w.dirs then w.dirs else path :: w.dirs,
        w.ops ++ [.MkdirAll path perm (!env.fails w.ops.length)], w.log⟩ := by
  cases hf : env.fails w.ops.length <;> simp [os.MkdirAll, World.record, hf] <;>
  constructor <;> rintro ⟨rfl, rfl⟩ <;> exact ⟨rfl, rfl⟩

@[simp]
theorem issueTrace_length (n bits : Nat) (keyFile certFile : String)
    (template parent : x509.Certificate) (signer : rsa.PrivateKey) :
    (issueTrace n bits keyFile certFile template parent signer).length = 8 := rfl

@[simp]
theorem chainTrace_length (first second out : String) (a b : Bytes) :
    (chainTrace first second out a b).length = 5 := rfl

theorem createServerChain_ok {env : Env} {w w1 : World} {u : Unit}
    (h : createServerChain env w = .ok u w1) :
    ∃ a b, w.files "certs/server.crt" = some a ∧ w.files "certs/intermediateCA.crt" = some b ∧
      w1 = ⟨w.files.set "certs/server-chain.crt" (a ++ b), w.dirs,
        w.ops ++ chainTrace "certs/server.crt" "certs/intermediateCA.crt"
          "certs/server-chain.crt" a b, w.log⟩ := by
  simp only [createServerChain, bind_eq_ok, orFatalf_eq_ok, ReadFile_eq_ok, Create_eq_ok,
    Write_eq_ok, pure_apply] at h
  simp [and_assoc] at h
  obtain ⟨a, ha, -, b, hb, -, -, -, -, rfl⟩ := h
  exact ⟨a, b, ha, hb, rfl⟩

theorem createClientChain_ok {env : Env} {w w1 : World} {u : Unit}
    (h : createClientChain env w = .ok u w1) :
    ∃ a b, w.files "certs/client.crt" = some a ∧ w.files "certs/intermediateCA.crt" = some b ∧
      w1 = ⟨w.files.set "certs/client-chain.crt" (a ++ b), w.dirs,
        w.ops ++ chainTrace "certs/client.crt" "certs/intermediateCA.crt"
          "certs/client-chain.crt" a b, w.log⟩ := by
  simp only [createClientChain, bind_eq_ok, orFatalf_eq_ok, ReadFile_eq_ok, Create_eq_ok,
    Write_eq_ok, pure_apply] at h
  simp [and_assoc] at h
  obtain ⟨a, ha, -, b, hb, -, -, -, -, rfl⟩ := h
  exact ⟨a, b, ha, hb, rfl⟩

theorem createCAChain_ok {env : Env} {rootCert intermediateCert : x509.Certificate}
    {w w1 : World} {u : Unit}
    (h : createCAChain env rootCert intermediateCert w = .ok u w1) :
    ∃ a b, w.files "certs/rootCA.crt" = some a ∧ w.files "certs/intermediateCA.crt" = some b ∧
      w1 = ⟨w.files.set "certs/ca-chain.crt" (a ++ b), w.dirs,
        w.ops ++ chainTrace "certs/rootCA.crt" "certs/intermediateCA.crt"
          "certs/ca-chain.crt" a b, w.log⟩ := by
  simp only [createCAChain, bind_eq_ok, orFatalf_eq_ok, ReadFile_eq_ok, Create_eq_ok,
    Write_eq_ok, pure_apply] at h
  simp [and_assoc] at h
  obtain ⟨a, ha, -, b, hb, -, -, -, -, rfl⟩ := h
  exact ⟨a, b, ha, hb, rfl⟩

theorem createRootCA_ok {env : Env} {w w1 : World} {k : rsa.PrivateKey}
    {c : x509.Certificate} (h : createRootCA env w = .ok (k, c) w1) :
    let n := w.ops.length
    let template := rootTemplate (env.time (n + 3)) (env.time (n + 4))
    let cert := x509.sign template template ⟨n, 4096⟩ ⟨⟨n, 4096⟩⟩
    k = ⟨⟨n, 4096⟩⟩ ∧ c = x509.parsed cert ∧
    w1 = ⟨(w.files.set "certs/rootCA.key"
            (env.pemEncode ⟨"RSA PRIVATE KEY", .PKCS1PrivateKey ⟨⟨n, 4096⟩⟩⟩)).set
          "certs/rootCA.crt" (env.pemEncode ⟨"CERTIFICATE", .Certificate cert⟩),
      w.dirs,
      w.ops ++ (issueTrace n 4096 "certs/rootCA.key" "certs/rootCA.crt" template template
        ⟨⟨n, 4096⟩⟩ ++ [.ParseCertificate (.Certificate cert) true]),
      w.log ++ ["Root CA created successfully"]⟩ := by
  simp only [createRootCA, saveCertificate_eq_ok, savePrivateKey_eq_ok, bind_eq_ok,
    orFatalf_eq_ok, call_eq_ok, GenerateKey_eq_ok, Now_eq, CreateCertificate_eq_ok,
    ParseCertificate_eq_ok, Println_eq_ok, pure_apply] at h
  simp [and_assoc] at h
  obtain ⟨-, -, -, -, -, -, -, -, rfl, rfl, rfl⟩ := h
  exact ⟨rfl, rfl, rfl⟩

theorem createIntermediateCA_ok {env : Env} {rootKey : rsa.PrivateKey}
    {rootCert : x509.Certificate} {w w1 : World} {k : rsa.PrivateKey}
    {c : x509.Certificate} (h : createIntermediateCA env rootKey rootCert w = .ok (k, c) w1) :
    let n := w.ops.length
    let template := intermediateTemplate (env.time (n + 3)) (env.time (n + 4))
    let cert := x509.sign template rootCert ⟨n, 4096⟩ rootKey
    k = ⟨⟨n, 4096⟩⟩ ∧ c = x509.parsed cert ∧
    w1 = ⟨(w.files.set "certs/intermediateCA.key"
            (env.pemEncode ⟨"RSA PRIVATE KEY", .PKCS1PrivateKey ⟨⟨n, 4096⟩⟩⟩)).set
          "certs/intermediateCA.crt" (env.pemEncode ⟨"CERTIFICATE", .Certificate cert⟩),
      w.dirs,
      w.ops ++ (issueTrace n 4096 "certs/intermediateCA.key" "certs/intermediateCA.crt"
        template rootCert rootKey ++ [.ParseCertificate (.Certificate cert) true]),
      w.log ++ ["Intermediate CA created successfully"]⟩ := by
  simp only [createIntermediateCA, saveCertificate_eq_ok, savePrivateKey_eq_ok, bind_eq_ok,
    orFatalf_eq_ok, call_eq_ok, GenerateKey_eq_ok, Now_eq, CreateCertificate_eq_ok,
    ParseCertificate_eq_ok, Println_eq_ok, pure_apply] at h
  simp [and_assoc] at h
  obtain ⟨-, -, -, -, -, -, -, -, rfl, rfl, rfl⟩ := h
  exact ⟨rfl, rfl, rfl⟩

theorem createServerCertificate_ok {env : Env} {intermediateKey : rsa.PrivateKey}
    {intermediateCert : x509.Certificate} {w w1 : World} {u : Unit}
    (h : createServerCertificate env intermediateKey intermediateCert w = .ok u w1) :
    let n := w.ops.length
    let template := serverTemplate (env.time (n + 3)) (env.time (n + 4))
    let cert := x509.sign template intermediateCert ⟨n, 2048⟩ intermediateKey
    let pemCert := env.pemEncode ⟨"CERTIFICATE", .Certificate cert⟩
    ∃ b, w.files "certs/intermediateCA.crt" = some b ∧
    w1 = ⟨((w.files.set "certs/server.key"
            (env.pemEncode ⟨"RSA PRIVATE KEY", .PKCS1PrivateKey ⟨⟨n, 2048⟩⟩⟩)).set
          "certs/server.crt" pemCert).set "certs/server-chain.crt" (pemCert ++ b),
      w.dirs,
      w.ops ++ (issueTrace n 2048 "certs/server.key" "certs/server.crt"
        template intermediateCert intermediateKey ++
        chainTrace "certs/server.crt" "certs/intermediateCA.crt" "certs/server-chain.crt"
          pemCert b),
      w.log ++ ["Server certificate created successfully"]⟩ := by
  simp only [createServerCertificate, createServerChain, saveCertificate_eq_ok,
    savePrivateKey_eq_ok, bind_eq_ok,
    orFatalf_eq_ok, call_eq_ok, GenerateKey_eq_ok, Now_eq, CreateCertificate_eq_ok,
    ReadFile_eq_ok, Create_eq_ok, Write_eq_ok, Println_eq_ok, pure_apply] at h
  simp [and_assoc] at h
  obtain ⟨-, -, -, -, -, -, -, -, x, ⟨b, hb, -, -, -, -, rfl⟩, rfl⟩ := h
  exact ⟨b, hb, rfl⟩

theorem createClientCertificate_ok {env : Env} {intermediateKey : rsa.PrivateKey}
    {intermediateCert : x509.Certificate} {w w1 : World} {u : Unit}
    (h : createClientCertificate env intermediateKey intermediateCert w = .ok u w1) :
    let n := w.ops.length
    let template := clientTemplate (env.time (n + 3)) (env.time (n + 4))
    let cert := x509.sign template intermediateCert ⟨n, 2048⟩ intermediateKey
    let pemCert := env.pemEncode ⟨"CERTIFICATE", .Certificate cert⟩
    ∃ b, w.files "certs/intermediateCA.crt" = some b ∧
    w1 = ⟨((w.files.set "certs/client.key"
            (env.pemEncode ⟨"RSA PRIVATE KEY", .PKCS1PrivateKey ⟨⟨n, 2048⟩⟩⟩)).set
          "certs/client.crt" pemCert).set "certs/client-chain.crt" (pemCert ++ b),
      w.dirs,
      w.ops ++ (issueTrace n 2048 "certs/client.key" "certs/client.crt"
        template intermediateCert intermediateKey ++
        chainTrace "certs/client.crt" "certs/intermediateCA.crt" "certs/client-chain.crt"
          pemCert b),
      w.log ++ ["Client certificate created successfully"]⟩ := by
  simp only [createClientCertificate, createClientChain, saveCertificate_eq_ok,
    savePrivateKey_eq_ok, bind_eq_ok,
    orFatalf_eq_ok, call_eq_ok, GenerateKey_eq_ok, Now_eq, CreateCertificate_eq_ok,
    ReadFile_eq_ok, Create_eq_ok, Write_eq_ok, Println_eq_ok, pure_apply] at h
  simp [and_assoc] at h
  obtain ⟨-, -, -, -, -, -, -, -, x, ⟨b, hb, -, -, -, -, rfl⟩, rfl⟩ := h
  exact ⟨b, hb, rfl⟩

theorem main_ok {env : Env} {fs : FileStore} {dirs : List String} {w1 : World} {u : Unit}
    (h : main env (start fs dirs) = .ok u w1) :
    w1.files = Complete.files env fs ∧ w1.ops = Complete.trace env := by
  simp only [main, bind_eq_ok, call_eq_ok, MkdirAll_eq, Println_eq_ok, start,
    List.length_nil, List.nil_append] at h
  obtain ⟨r, w0, ⟨-, rfl⟩, ⟨rk, rc⟩, wa, hroot, ⟨ik, ic⟩, wb, hint, _, wc, hsrv, _, wd, hcli,
    _, we, hca, rfl⟩ := h
  obtain ⟨rfl, rfl, rfl⟩ := createRootCA_ok hroot
  obtain ⟨rfl, rfl, rfl⟩ := createIntermediateCA_ok hint
  obtain ⟨b1, hb1, rfl⟩ := createServerCertificate_ok hsrv
  obtain ⟨b2, hb2, rfl⟩ := createClientCertificate_ok hcli
  obtain ⟨a3, b3, ha3, hb3, rfl⟩ := createCAChain_ok hca
  clear hroot hint hsrv hcli hca
  simp at hb1 hb2 ha3 hb3
  subst hb1 hb2 ha3 hb3
  constructor
  · simp [Complete.files, Complete.pemKey, Complete.pemCert, Complete.rootKey,
      Complete.intermediateKey, Complete.serverKey, Complete.clientKey, Complete.rootCert,
      Complete.intermediateCert, Complete.serverCert, Complete.clientCert]
  · simp [Complete.trace, Complete.pemKey, Complete.pemCert, Complete.rootKey,
      Complete.intermediateKey, Complete.serverKey, Complete.clientKey, Complete.rootCert,
      Complete.intermediateCert, Complete.serverCert, Complete.clientCert]


theorem isOk_iff {α : Type} {r : Result α} : r.isOk = true ↔ ∃ a w, r = .ok a w := by
  cases r <;> simp [Result.isOk]

/-- A run that completes ends in the files and the trace of `Complete`. -/
theorem run_ok {env : Env} {fs : FileStore} {dirs : List String}
    (h : (run env fs dirs).isOk = true) :
    (run env fs dirs).world.files = Complete.files env fs ∧
    (run env fs dirs).world.ops = Complete.trace env := by
  obtain ⟨u, w1, hw⟩ := isOk_iff.1 h
  have hm := main_ok (show main env (start fs dirs) = .ok u w1 from hw)
  rw [hw]
  exact hm

theorem issued_complete (env : Env) (w : World) (h : w.ops = Complete.trace env) :
    w.issued = [Complete.rootCert env, Complete.intermediateCert env,
      Complete.serverCert env, Complete.clientCert env] := by
  simp [World.issued, h, Complete.trace, issueTrace, chainTrace, Complete.rootCert,
    Complete.intermediateCert, Complete.serverCert, Complete.clientCert, Complete.rootKey,
    Complete.intermediateKey, Complete.serverKey, Complete.clientKey]

/-! ## Which files a piece of the program writes -/

theorem touches_bind {α β : Type} {S : List String} {p : Prog α} {q : α → Prog β}
    (hp : Touches S p) (hq : ∀ a, Touches S (q a)) : Touches S (p >>= q) := by
  intro w name hn
  have h1 := hp w name hn
  simp only [bind_apply]
  cases h : p w with
  | ok a w1 =>
    rw [h] at h1
    simp only [Result.world] at h1
    simp only []
    rw [hq a w1 name hn, h1]
  | fatal msg w1 =>
    rw [h] at h1
    exact h1

theorem touches_pure {α : Type} (S : List String) (a : α) : Touches S (pure a : Prog α) :=
  fun _ _ _ => rfl

theorem touches_Println (S : List String) (msg : String) : Touches S (log.Println msg) :=
  fun _ _ _ => rfl

theorem touches_bind_ok {α β : Type} {S : List String} {p : Prog α} {q : α → Prog β}
    (hp : Touches S p) (hq : ∀ a w w1, p w = .ok a w1 → Touches S (q a)) :
    Touches S (p >>= q) := by
  intro w name hn
  have h1 := hp w name hn
  simp only [bind_apply]
  cases h : p w with
  | ok a w1 =>
    rw [h] at h1
    simp only [Result.world] at h1
    simp only []
    rw [hq a w w1 h w1 name hn, h1]
  | fatal msg w1 =>
    rw [h] at h1
    exact h1

theorem touches_orFatalf {α : Type} {S : List String} {f : World → Except Error α × World}
    (format : Error → String)
    (hf : ∀ w name, name ∉ S → (f w).2.files name = w.files name) :
    Touches S (orFatalf f format) := by
  intro w name hn
  have h := hf w name hn
  unfold orFatalf
  rcases hfw : f w with ⟨r, w1⟩
  rw [hfw] at h
  cases r <;> simp only [Result.world] <;> rw [← h]

theorem touches_call {α : Type} {S : List String} {f : World → α × World}
    (hf : ∀ w name, name ∉ S → (f w).2.files name = w.files name) : Touches S (call f) := by
  intro w name hn
  have h := hf w name hn
  unfold call
  rcases hfw : f w with ⟨r, w1⟩
  rw [hfw] at h
  simp only [Result.world]
  rw [← h]

theorem MkdirAll_files (env : Env) (path : String) (perm : Nat) (w : World) :
    (os.MkdirAll env path perm w).2.files = w.files := by
  unfold os.MkdirAll World.record
  split <;> rfl

theorem GenerateKey_files (env : Env) (bits : Nat) (w : World) :
    (rsa.GenerateKey env bits w).2.files = w.files := by
  unfold rsa.GenerateKey World.record
  split <;> rfl

theorem Now_files (env : Env) (w : World) : (time.Now env w).2.files = w.files := rfl

theorem CreateCertificate_files (env : Env) (template parent : x509.Certificate)
    (pub : rsa.PublicKey) (priv : rsa.PrivateKey) (w : World) :
    (x509.CreateCertificate env template parent pub priv w).2.files = w.files := by
  unfold x509.CreateCertificate World.record
  split_ifs <;> rfl

theorem ParseCertificate_files (env : Env) (der : DER) (w : World) :
    (x509.ParseCertificate env der w).2.files = w.files := by
  unfold x509.ParseCertificate World.record
  split
  · rfl
  · cases der <;> rfl

theorem ReadFile_files (env : Env) (name : String) (w : World) :
    (os.ReadFile env name w).2.files = w.files := by
  unfold os.ReadFile World.record
  split
  · rfl
  · split <;> rfl

theorem Create_frame (env : Env) (name : String) (w : World) (n : String) (h : n ≠ name) :
    (os.Create env name w).2.files n = w.files n := by
  unfold os.Create World.record
  split <;> simp [FileStore.set, h]

theorem append_frame (env : Env) (file : os.File) (b : Bytes) (w : World) (n : String)
    (h : n ≠ file.name) : (os.File.append env file b w).2 n = w.files n := by
  unfold os.File.append
  split <;> simp [FileStore.set, h]

theorem Encode_frame (env : Env) (out : os.File) (b : pem.Block) (w : World) (n : String)
    (h : n ≠ out.name) : (pem.Encode env out b w).2.files n = w.files n := by
  have ha := append_frame env out (env.pemEncode b) w n h
  unfold pem.Encode World.record
  rcases hx : os.File.append env out (env.pemEncode b) w with ⟨ok, fs⟩
  rw [hx] at ha
  cases ok <;> exact ha

theorem Write_frame (env : Env) (file : os.File) (b : Bytes) (w : World) (n : String)
    (h : n ≠ file.name) : (os.File.Write env file b w).2.files n = w.files n := by
  have ha := append_frame env file b w n h
  unfold os.File.Write World.record
  rcases hx : os.File.append env file b w with ⟨ok, fs⟩
  rw [hx] at ha
  cases ok <;> exact ha

theorem touches_Create {S : List String} (env : Env) (name : String)
    (format : Error → String) (h : name ∈ S) : Touches S (orFatalf (os.Create env name) format) :=
  touches_orFatalf format (fun w n hn =>
    Create_frame env name w n (fun heq => hn (heq ▸ h)))

theorem touches_Encode {S : List String} (env : Env) (out : os.File) (b : pem.Block)
    (format : Error → String) (h : out.name ∈ S) :
    Touches S (orFatalf (pem.Encode env out b) format) :=
  touches_orFatalf format (fun w n hn =>
    Encode_frame env out b w n (fun hEq => hn (hEq ▸ h)))

theorem touches_Write {S : List String} (env : Env) (file : os.File) (b : Bytes)
    (format : Error → String) (h : file.name ∈ S) :
    Touches S (orFatalf (os.File.Write env file b) format) :=
  touches_orFatalf format (fun w n hn =>
    Write_frame env file b w n (fun hEq => hn (hEq ▸ h)))

theorem touches_ReadFile (S : List String) (env : Env) (name : String)
    (format : Error → String) : Touches S (orFatalf (os.ReadFile env name) format) :=
  touches_orFatalf format (fun w n _ => by rw [ReadFile_files])

theorem touches_GenerateKey (S : List String) (env : Env) (bits : Nat)
    (format : Error → String) : Touches S (orFatalf (rsa.GenerateKey env bits) format) :=
  touches_orFatalf format (fun w n _ => by rw [GenerateKey_files])

theorem touches_CreateCertificate (S : List String) (env : Env)
    (template parent : x509.Certificate) (pub : rsa.PublicKey) (priv : rsa.PrivateKey)
    (format : Error → String) :
    Touches S (orFatalf (x509.CreateCertificate env template parent pub priv) format) :=
  touches_orFatalf format (fun w n _ => by rw [CreateCertificate_files])

theorem touches_ParseCertificate (S : List String) (env : Env) (der : DER)
    (format : Error → String) :
    Touches S (orFatalf (x509.ParseCertificate env der) format) :=
  touches_orFatalf format (fun w n _ => by rw [ParseCertificate_files])

theorem touches_Now (S : List String) (env : Env) : Touches S (call (time.Now env)) :=
  touches_call (fun w n _ => by rw [Now_files])

theorem touches_MkdirAll (S : List String) (env : Env) (path : String) (perm : Nat) :
    Touches S (call (os.MkdirAll env path perm)) :=
  touches_call (fun w n _ => by rw [MkdirAll_files])

theorem Create_ok_name {env : Env} {name : String} {format : Error → String} {w w1 : World}
    {file : os.File} (h : orFatalf (os.Create env name) format w = .ok file w1) :
    file.name = name := by
  have h1 := (Create_eq_ok.1 (orFatalf_eq_ok.1 h)).2.1
  rw [h1]

theorem touches_savePrivateKey {S : List String} (env : Env) (key : rsa.PrivateKey)
    (filename : String) (h : filename ∈ S) : Touches S (savePrivateKey env key filename) := by
  unfold savePrivateKey
  refine touches_bind_ok (touches_Create env filename _ h) (fun file w w1 hc => ?_)
  exact touches_Encode env file _ _ (by rw [Create_ok_name hc]; exact h)

theorem touches_saveCertificate {S : List String} (env : Env) (der : DER)
    (filename : String) (h : filename ∈ S) : Touches S (saveCertificate env der filename) := by
  unfold saveCertificate
  refine touches_bind_ok (touches_Create env filename _ h) (fun file w w1 hc => ?_)
  exact touches_Encode env file _ _ (by rw [Create_ok_name hc]; exact h)

theorem touches_createServerChain {S : List String} (env : Env)
    (h : "certs/server-chain.crt" ∈ S) : Touches S (createServerChain env) := by
  unfold createServerChain
  refine touches_bind (touches_ReadFile S env _ _) (fun serverCert => ?_)
  refine touches_bind (touches_ReadFile S env _ _) (fun intermediateCert => ?_)
  refine touches_bind_ok (touches_Create env _ _ h) (fun file w w1 hc => ?_)
  have hn : file.name ∈ S := by rw [Create_ok_name hc]; exact h
  refine touches_bind (touches_Write env file _ _ hn) (fun _ => ?_)
  refine touches_bind (touches_Write env file _ _ hn) (fun _ => ?_)
  exact touches_pure S _

theorem touches_createClientChain {S : List String} (env : Env)
    (h : "certs/client-chain.crt" ∈ S) : Touches S (createClientChain env) := by
  unfold createClientChain
  refine touches_bind (touches_ReadFile S env _ _) (fun clientCert => ?_)
  refine touches_bind (touches_ReadFile S env _ _) (fun intermediateCert => ?_)
  refine touches_bind_ok (touches_Create env _ _ h) (fun file w w1 hc => ?_)
  have hn : file.name ∈ S := by rw [Create_ok_name hc]; exact h
  refine touches_bind (touches_Write env file _ _ hn) (fun _ => ?_)
  refine touches_bind (touches_Write env file _ _ hn) (fun _ => ?_)
  exact touches_pure S _

theorem touches_createCAChain {S : List String} (env : Env)
    (rootCert intermediateCert : x509.Certificate)
    (h : "certs/ca-chain.crt" ∈ S) : Touches S (createCAChain env rootCert intermediateCert) := by
  unfold createCAChain
  refine touches_bind (touches_ReadFile S env _ _) (fun rootCertPEM => ?_)
  refine touches_bind (touches_ReadFile S env _ _) (fun intermediateCertPEM => ?_)
  refine touches_bind_ok (touches_Create env _ _ h) (fun file w w1 hc => ?_)
  have hn : file.name ∈ S := by rw [Create_ok_name hc]; exact h
  refine touches_bind (touches_Write env file _ _ hn) (fun _ => ?_)
  refine touches_bind (touches_Write env file _ _ hn) (fun _ => ?_)
  exact touches_pure S _

theorem touches_createRootCA (env : Env) :
    Touches Step.root.outputs (createRootCA env) := by
  unfold createRootCA
  refine touches_bind (touches_GenerateKey _ env _ _) (fun rootKey => ?_)
  refine touches_bind (touches_savePrivateKey env _ _ (by simp [Step.outputs])) (fun _ => ?_)
  refine touches_bind (touches_Now _ env) (fun now1 => ?_)
  refine touches_bind (touches_Now _ env) (fun now2 => ?_)
  refine touches_bind (touches_CreateCertificate _ env _ _ _ _ _) (fun der => ?_)
  refine touches_bind (touches_saveCertificate env _ _ (by simp [Step.outputs])) (fun _ => ?_)
  refine touches_bind (touches_ParseCertificate _ env _ _) (fun rootCert => ?_)
  refine touches_bind (touches_Println _ _) (fun _ => ?_)
  exact touches_pure _ _

theorem touches_createIntermediateCA (env : Env) (rootKey : rsa.PrivateKey)
    (rootCert : x509.Certificate) :
    Touches Step.intermediate.outputs (createIntermediateCA env rootKey rootCert) := by
  unfold createIntermediateCA
  refine touches_bind (touches_GenerateKey _ env _ _) (fun intermediateKey => ?_)
  refine touches_bind (touches_savePrivateKey env _ _ (by simp [Step.outputs])) (fun _ => ?_)
  refine touches_bind (touches_Now _ env) (fun now1 => ?_)
  refine touches_bind (touches_Now _ env) (fun now2 => ?_)
  refine touches_bind (touches_CreateCertificate _ env _ _ _ _ _) (fun der => ?_)
  refine touches_bind (touches_saveCertificate env _ _ (by simp [Step.outputs])) (fun _ => ?_)
  refine touches_bind (touches_ParseCertificate _ env _ _) (fun intermediateCert => ?_)
  refine touches_bind (touches_Println _ _) (fun _ => ?_)
  exact touches_pure _ _

theorem touches_createServerCertificate (env : Env) (intermediateKey : rsa.PrivateKey)
    (intermediateCert : x509.Certificate) :
    Touches Step.server.outputs
      (createServerCertificate env intermediateKey intermediateCert) := by
  unfold createServerCertificate
  refine touches_bind (touches_GenerateKey _ env _ _) (fun serverKey => ?_)
  refine touches_bind (touches_savePrivateKey env _ _ (by simp [Step.outputs])) (fun _ => ?_)
  refine touches_bind (touches_Now _ env) (fun now1 => ?_)
  refine touches_bind (touches_Now _ env) (fun now2 => ?_)
  refine touches_bind (touches_CreateCertificate _ env _ _ _ _ _) (fun der => ?_)
  refine touches_bind (touches_saveCertificate env _ _ (by simp [Step.outputs])) (fun _ => ?_)
  refine touches_bind (touches_createServerChain env (by simp [Step.outputs])) (fun _ => ?_)
  exact touches_Println _ _

theorem touches_createClientCertificate (env : Env) (intermediateKey : rsa.PrivateKey)
    (intermediateCert : x509.Certificate) :
    Touches Step.client.outputs
      (createClientCertificate env intermediateKey intermediateCert) := by
  unfold createClientCertificate
  refine touches_bind (touches_GenerateKey _ env _ _) (fun clientKey => ?_)
  refine touches_bind (touches_savePrivateKey env _ _ (by simp [Step.outputs])) (fun _ => ?_)
  refine touches_bind (touches_Now _ env) (fun now1 => ?_)
  refine touches_bind (touches_Now _ env) (fun now2 => ?_)
  refine touches_bind (touches_CreateCertificate _ env _ _ _ _ _) (fun der => ?_)
  refine touches_bind (touches_saveCertificate env _ _ (by simp [Step.outputs])) (fun _ => ?_)
  refine touches_bind (touches_createClientChain env (by simp [Step.outputs])) (fun _ => ?_)
  exact touches_Println _ _

theorem outputs_disjoint (s t : Step) (h : s ≠ t) (name : String) (ht : name ∈ t.outputs) :
    name ∉ s.outputs := by
  revert name
  cases s <;> cases t <;> first | exact absurd rfl h | decide

/-! ## Which errors end the run -/

theorem checked_bind {α β : Type} {p : Prog α} {q : α → Prog β}
    (hp : Checked p) (hq : ∀ a, Checked (q a)) : Checked (p >>= q) := by
  intro w hw
  have h1 := hp w hw
  simp only [bind_apply]
  cases h : p w with
  | ok a w1 =>
    rw [h] at h1
    exact hq a w1 h1
  | fatal msg w1 =>
    rw [h] at h1
    exact h1

theorem clean_append {w : World} {ops : List Event} {e : Event} (hw : w.clean)
    (h : ops = w.ops ++ [e]) (he : e.failed = true → e.isMkdirAll = true) :
    ∀ e1 ∈ ops, e1.failed = true → e1.isMkdirAll = true := by
  intro e1 h1
  rw [h, List.mem_append] at h1
  rcases h1 with h1 | h1
  · exact hw e1 h1
  · rw [List.mem_singleton] at h1
    rw [h1]
    exact he

theorem checked_orFatalf {α : Type} {f : World → Except Error α × World}
    (format : Error → String)
    (hf : ∀ w, ∃ e, (f w).2.ops = w.ops ++ [e] ∧ ∀ a, (f w).1 = .ok a → e.failed = false) :
    Checked (orFatalf f format) := by
  intro w hw
  obtain ⟨e, he, hok⟩ := hf w
  unfold orFatalf
  rcases hfw : f w with ⟨r, w1⟩
  rw [hfw] at he hok
  cases r with
  | ok a =>
    have hne := hok a rfl
    exact clean_append hw he (fun hfail => by rw [hne] at hfail; cases hfail)
  | error err => exact ⟨w.ops, e, he, hw⟩

theorem checked_pure {α : Type} (a : α) : Checked (pure a : Prog α) :=
  fun _ hw => hw

theorem checked_Println (msg : String) : Checked (log.Println msg) :=
  fun _ hw => hw

theorem checked_Now (env : Env) : Checked (call (time.Now env)) :=
  fun w hw => clean_append hw (e := .Now) rfl (fun hfail => by cases hfail)

theorem checked_MkdirAll (env : Env) (path : String) (perm : Nat) :
    Checked (call (os.MkdirAll env path perm)) := by
  intro w hw
  unfold call os.MkdirAll World.record
  split_ifs
  · exact clean_append hw (e := .MkdirAll path perm false) rfl (fun _ => rfl)
  · exact clean_append hw (e := .MkdirAll path perm true) rfl (fun _ => rfl)
  · exact clean_append hw (e := .MkdirAll path perm true) rfl (fun _ => rfl)

theorem checked_GenerateKey (env : Env) (bits : Nat) (format : Error → String) :
    Checked (orFatalf (rsa.GenerateKey env bits) format) := by
  refine checked_orFatalf format (fun w => ?_)
  unfold rsa.GenerateKey World.record
  split_ifs
  · exact ⟨_, rfl, fun a h => by cases h⟩
  · exact ⟨_, rfl, fun _ _ => rfl⟩

theorem checked_Create (env : Env) (name : String) (format : Error → String) :
    Checked (orFatalf (os.Create env name) format) := by
  refine checked_orFatalf format (fun w => ?_)
  unfold os.Create World.record
  split_ifs
  · exact ⟨_, rfl, fun a h => by cases h⟩
  · exact ⟨_, rfl, fun _ _ => rfl⟩

theorem checked_ReadFile (env : Env) (name : String) (format : Error → String) :
    Checked (orFatalf (os.ReadFile env name) format) := by
  refine checked_orFatalf format (fun w => ?_)
  unfold os.ReadFile World.record
  split
  · exact ⟨_, rfl, fun a h => by cases h⟩
  · split_ifs
    · exact ⟨_, rfl, fun a h => by cases h⟩
    · exact ⟨_, rfl, fun _ _ => rfl⟩

theorem checked_Encode (env : Env) (out : os.File) (b : pem.Block) (format : Error → String) :
    Checked (orFatalf (pem.Encode env out b) format) := by
  refine checked_orFatalf format (fun w => ?_)
  unfold pem.Encode World.record
  rcases os.File.append env out (env.pemEncode b) w with ⟨ok, fs⟩
  cases ok
  · exact ⟨_, rfl, fun a h => by cases h⟩
  · exact ⟨_, rfl, fun _ _ => rfl⟩

theorem checked_Write (env : Env) (file : os.File) (b : Bytes) (format : Error → String) :
    Checked (orFatalf (os.File.Write env file b) format) := by
  refine checked_orFatalf format (fun w => ?_)
  unfold os.File.Write World.record
  rcases os.File.append env file b w with ⟨ok, fs⟩
  cases ok
  · exact ⟨_, rfl, fun a h => by cases h⟩
  · exact ⟨_, rfl, fun _ _ => rfl⟩

theorem checked_CreateCertificate (env : Env) (template parent : x509.Certificate)
    (pub : rsa.PublicKey) (priv : rsa.PrivateKey) (format : Error → String) :
    Checked (orFatalf (x509.CreateCertificate env template parent pub priv) format) := by
  refine checked_orFatalf format (fun w => ?_)
  unfold x509.CreateCertificate World.record
  split_ifs
  · exact ⟨_, rfl, fun a h => by cases h⟩
  · exact ⟨_, rfl, fun a h => by cases h⟩
  · exact ⟨_, rfl, fun _ _ => rfl⟩

theorem checked_ParseCertificate (env : Env) (der : DER) (format : Error → String) :
    Checked (orFatalf (x509.ParseCertificate env der) format) := by
  refine checked_orFatalf format (fun w => ?_)
  unfold x509.ParseCertificate World.record
  split_ifs
  · exact ⟨_, rfl, fun a h => by cases h⟩
  · cases der
    · exact ⟨_, rfl, fun a h => by cases h⟩
    · exact ⟨_, rfl, fun _ _ => rfl⟩

theorem checked_savePrivateKey (env : Env) (key : rsa.PrivateKey) (filename : String) :
    Checked (savePrivateKey env key filename) :=
  checked_bind (checked_Create env _ _) (fun _ => checked_Encode env _ _ _)

theorem checked_saveCertificate (env : Env) (der : DER) (filename : String) :
    Checked (saveCertificate env der filename) :=
  checked_bind (checked_Create env _ _) (fun _ => checked_Encode env _ _ _)

theorem checked_createServerChain (env : Env) : Checked (createServerChain env) :=
  checked_bind (checked_ReadFile env _ _) fun _ =>
  checked_bind (checked_ReadFile env _ _) fun _ =>
  checked_bind (checked_Create env _ _) fun _ =>
  checked_bind (checked_Write env _ _ _) fun _ =>
  checked_bind (checked_Write env _ _ _) fun _ => checked_pure _

theorem checked_createClientChain (env : Env) : Checked (createClientChain env) :=
  checked_bind (checked_ReadFile env _ _) fun _ =>
  checked_bind (checked_ReadFile env _ _) fun _ =>
  checked_bind (checked_Create env _ _) fun _ =>
  checked_bind (checked_Write env _ _ _) fun _ =>
  checked_bind (checked_Write env _ _ _) fun _ => checked_pure _

theorem checked_createCAChain (env : Env) (rootCert intermediateCert : x509.Certificate) :
    Checked (createCAChain env rootCert intermediateCert) :=
  checked_bind (checked_ReadFile env _ _) fun _ =>
  checked_bind (checked_ReadFile env _ _) fun _ =>
  checked_bind (checked_Create env _ _) fun _ =>
  checked_bind (checked_Write env _ _ _) fun _ =>
  checked_bind (checked_Write env _ _ _) fun _ => checked_pure _

theorem checked_createRootCA (env : Env) : Checked (createRootCA env) :=
  checked_bind (checked_GenerateKey env _ _) fun _ =>
  checked_bind (checked_savePrivateKey env _ _) fun _ =>
  checked_bind (checked_Now env) fun _ =>
  checked_bind (checked_Now env) fun _ =>
  checked_bind (checked_CreateCertificate env _ _ _ _ _) fun _ =>
  checked_bind (checked_saveCertificate env _ _) fun _ =>
  checked_bind (checked_ParseCertificate env _ _) fun _ =>
  checked_bind (checked_Println _) fun _ => checked_pure _

theorem checked_createIntermediateCA (env : Env) (rootKey : rsa.PrivateKey)
    (rootCert : x509.Certificate) : Checked (createIntermediateCA env rootKey rootCert) :=
  checked_bind (checked_GenerateKey env _ _) fun _ =>
  checked_bind (checked_savePrivateKey env _ _) fun _ =>
  checked_bind (checked_Now env) fun _ =>
  checked_bind (checked_Now env) fun _ =>
  checked_bind (checked_CreateCertificate env _ _ _ _ _) fun _ =>
  checked_bind (checked_saveCertificate env _ _) fun _ =>
  checked_bind (checked_ParseCertificate env _ _) fun _ =>
  checked_bind (checked_Println _) fun _ => checked_pure _

theorem checked_createServerCertificate (env : Env) (intermediateKey : rsa.PrivateKey)
    (intermediateCert : x509.Certificate) :
    Checked (createServerCertificate env intermediateKey intermediateCert) :=
  checked_bind (checked_GenerateKey env _ _) fun _ =>
  checked_bind (checked_savePrivateKey env _ _) fun _ =>
  checked_bind (checked_Now env) fun _ =>
  checked_bind (checked_Now env) fun _ =>
  checked_bind (checked_CreateCertificate env _ _ _ _ _) fun _ =>
  checked_bind (checked_saveCertificate env _ _) fun _ =>
  checked_bind (checked_createServerChain env) fun _ => checked_Println _

theorem checked_createClientCertificate (env : Env) (intermediateKey : rsa.PrivateKey)
    (intermediateCert : x509.Certificate) :
    Checked (createClientCertificate env intermediateKey intermediateCert) :=
  checked_bind (checked_GenerateKey env _ _) fun _ =>
  checked_bind (checked_savePrivateKey env _ _) fun _ =>
  checked_bind (checked_Now env) fun _ =>
  checked_bind (checked_Now env) fun _ =>
  checked_bind (checked_CreateCertificate env _ _ _ _ _) fun _ =>
  checked_bind (checked_saveCertificate env _ _) fun _ =>
  checked_bind (checked_createClientChain env) fun _ => checked_Println _

theorem checked_main (env : Env) : Checked (main env) :=
  checked_bind (checked_MkdirAll env _ _) fun _ =>
  checked_bind (checked_createRootCA env) fun x =>
  checked_bind (checked_createIntermediateCA env x.1 x.2) fun y =>
  checked_bind (checked_createServerCertificate env y.1 y.2) fun _ =>
  checked_bind (checked_createClientCertificate env y.1 y.2) fun _ =>
  checked_bind (checked_createCAChain env x.2 y.2) fun _ => checked_Println _

/-- Every error but that of `os.MkdirAll` is fatal at once: in any run, a call that failed
and is not a call of `os.MkdirAll` is the last call of the run. -/
theorem failed_call_is_last (env : Env) (fs : FileStore) (dirs : List String) (i : Nat)
    (e : Event) (hi : (run env fs dirs).world.ops[i]? = some e) (hfail : e.failed = true)
    (hm : e.isMkdirAll = false) : i + 1 = (run env fs dirs).world.ops.length := by
  have hc := checked_main env (start fs dirs) (fun e he => by simp [start] at he)
  unfold run at hi ⊢
  cases hr : main env (start fs dirs) with
  | ok u w1 =>
    rw [hr] at hc hi
    simp only [Result.world] at hi hc
    have hmem : e ∈ w1.ops := List.getElem?_mem hi
    have := hc e hmem hfail
    rw [hm] at this
    cases this
  | fatal msg w1 =>
    rw [hr] at hc hi
    simp only [Result.world] at hi hc ⊢
    obtain ⟨init, e0, hops, hinit⟩ := hc
    rw [hops] at hi ⊢
    by_cases hlt : i < init.length
    · rw [List.getElem?_append_left hlt] at hi
      have hmem : e ∈ init := List.getElem?_mem hi
      have := hinit e hmem hfail
      rw [hm] at this
      cases this
    · have hlen : i < (init ++ [e0]).length := by
        rcases Nat.lt_or_ge i (init ++ [e0]).length with h | h
        · exact h
        · rw [List.getElem?_eq_none h] at hi
          cases hi
      simp only [List.length_append, List.length_singleton] at hlen ⊢
      omega

/-- The run completes exactly when no step fails. -/
theorem failedStep_eq_none_iff (env : Env) (w : World) :
    failedStep env w = none ↔ (main env w).isOk = true := by
  unfold failedStep
  simp only [main, bind_apply, call]
  rcases os.MkdirAll env "certs" 0o755 w with ⟨r, w0⟩
  simp only
  cases createRootCA env w0 with
  | fatal msg w1 => simp [Result.isOk]
  | ok a w1 =>
    obtain ⟨rk, rc⟩ := a
    simp only
    cases createIntermediateCA env rk rc w1 with
    | fatal msg w2 => simp [Result.isOk]
    | ok a w2 =>
      obtain ⟨ik, ic⟩ := a
      simp only
      cases createServerCertificate env ik ic w2 with
      | fatal msg w3 => simp [Result.isOk]
      | ok u3 w3 =>
        simp only
        cases createClientCertificate env ik ic w3 with
        | fatal msg w4 => simp [Result.isOk]
        | ok u4 w4 =>
          simp only
          cases createCAChain env rc ic w4 with
          | fatal msg w5 => simp [Result.isOk]
          | ok u5 w5 => simp [Result.isOk, log.Println]

/-! ## The claims -/

/-- C1. After a run in which no step fails, each chain file is the byte concatenation of two
certificate files, nothing added, removed or reordered: `server-chain.crt` is `server.crt`
followed by `intermediateCA.crt`, `client-chain.crt` is `client.crt` followed by
`intermediateCA.crt`, `ca-chain.crt` is `rootCA.crt` followed by `intermediateCA.crt`; the
four certificate files hold the PEM text of the four certificates issued in this run. -/
theorem chain_files_are_concatenations (env : Env) (fs : FileStore) (dirs : List String)
    (h : (run env fs dirs).isOk = true) :
    ∃ root intermediate server client : Bytes,
      (run env fs dirs).world.files "certs/rootCA.crt" = some root ∧
      (run env fs dirs).world.files "certs/intermediateCA.crt" = some intermediate ∧
      (run env fs dirs).world.files "certs/server.crt" = some server ∧
      (run env fs dirs).world.files "certs/client.crt" = some client ∧
      (run env fs dirs).world.files "certs/server-chain.crt" = some (server ++ intermediate) ∧
      (run env fs dirs).world.files "certs/client-chain.crt" = some (client ++ intermediate) ∧
      (run env fs dirs).world.files "certs/ca-chain.crt" = some (root ++ intermediate) ∧
      (run env fs dirs).world.issued.map
          (fun c => env.pemEncode { Type_ := "CERTIFICATE", Bytes := .Certificate c }) =
        [root, intermediate, server, client] := by
  obtain ⟨hf, ho⟩ := run_ok h
  refine ⟨Complete.pemCert env (Complete.rootCert env),
    Complete.pemCert env (Complete.intermediateCert env),
    Complete.pemCert env (Complete.serverCert env),
    Complete.pemCert env (Complete.clientCert env), ?_⟩
  rw [hf, issued_complete env _ ho]
  simp [Complete.files, Complete.pemCert]

theorem chain_files_are_concatenations_witness :
    (run Sample.calm Sample.oldFiles []).isOk = true ∧
    ∃ root intermediate server client : Bytes,
      Sample.renewed.files "certs/rootCA.crt" = some root ∧
      Sample.renewed.files "certs/intermediateCA.crt" =
        some intermediate ∧
      Sample.renewed.files "certs/server.crt" = some server ∧
      Sample.renewed.files "certs/client.crt" = some client ∧
      Sample.renewed.files "certs/server-chain.crt" =
        some (server ++ intermediate) ∧
      Sample.renewed.files "certs/client-chain.crt" =
        some (client ++ intermediate) ∧
      Sample.renewed.files "certs/ca-chain.crt" =
        some (root ++ intermediate) ∧
      Sample.renewed.issued.map
          (fun c => Sample.calm.pemEncode
            { Type_ := "CERTIFICATE", Bytes := .Certificate c }) =
        [root, intermediate, server, client] :=
  ⟨by decide, chain_files_are_concatenations Sample.calm Sample.oldFiles [] (by decide)⟩

/-- C3. In a run that completes, four certificates are issued and the issuer name of each is
the subject name of the certificate whose key signed it: the root names itself and is signed
with its own key, the intermediate names the root and is signed with the root key, the server
and the client name the intermediate (MyIntermediateCA) and are signed with the intermediate
key; in each of the four signing calls the issuer certificate and the private key passed
belong to the same entity. -/
theorem issuer_is_signer (env : Env) (fs : FileStore) (dirs : List String)
    (h : (run env fs dirs).isOk = true) :
    ∃ root intermediate server client : x509.Signed,
      (run env fs dirs).world.issued = [root, intermediate, server, client] ∧
      root.Subject = { CommonName := "MyRootCA" } ∧
      intermediate.Subject = { CommonName := "MyIntermediateCA" } ∧
      root.Issuer = root.Subject ∧ root.SignedBy = root.PublicKey ∧
      intermediate.Issuer = root.Subject ∧ intermediate.SignedBy = root.PublicKey ∧
      server.Issuer = intermediate.Subject ∧ server.SignedBy = intermediate.PublicKey ∧
      client.Issuer = intermediate.Subject ∧ client.SignedBy = intermediate.PublicKey ∧
      root.PublicKey ≠ intermediate.PublicKey ∧
      (run env fs dirs).world.signings =
        [(root.Subject, root.PublicKey), (root.Subject, root.PublicKey),
          (intermediate.Subject, intermediate.PublicKey),
          (intermediate.Subject, intermediate.PublicKey)] := by
  obtain ⟨-, ho⟩ := run_ok h
  refine ⟨Complete.rootCert env, Complete.intermediateCert env, Complete.serverCert env,
    Complete.clientCert env, issued_complete env _ ho, ?_⟩
  simp [World.signings, ho, Complete.trace, issueTrace, chainTrace, Complete.rootCert,
    Complete.intermediateCert, Complete.serverCert, Complete.clientCert, Complete.rootKey,
    Complete.intermediateKey, Complete.serverKey, Complete.clientKey, x509.sign, x509.parsed,
    rootTemplate, intermediateTemplate, rsa.PrivateKey.Public]

theorem issuer_is_signer_witness :
    (run Sample.calm Sample.noFiles []).isOk = true ∧
    ∃ root intermediate server client : x509.Signed,
      Sample.fresh.issued = [root, intermediate, server, client] ∧
      root.Subject = { CommonName := "MyRootCA" } ∧
      intermediate.Subject = { CommonName := "MyIntermediateCA" } ∧
      root.Issuer = root.Subject ∧ root.SignedBy = root.PublicKey ∧
      intermediate.Issuer = root.Subject ∧ intermediate.SignedBy = root.PublicKey ∧
      server.Issuer = intermediate.Subject ∧ server.SignedBy = intermediate.PublicKey ∧
      client.Issuer = intermediate.Subject ∧ client.SignedBy = intermediate.PublicKey ∧
      root.PublicKey ≠ intermediate.PublicKey ∧
      Sample.fresh.signings =
        [(root.Subject, root.PublicKey), (root.Subject, root.PublicKey),
          (intermediate.Subject, intermediate.PublicKey),
          (intermediate.Subject, intermediate.PublicKey)] :=
  ⟨by decide, issuer_is_signer Sample.calm Sample.noFiles [] (by decide)⟩

/-- C8. In a run that completes, the serial numbers of the four certificates issued are 1 for
the root, 2 for the intermediate, 3 for the server and 4 for the client, so they are pairwise
distinct. -/
theorem serial_numbers_distinct (env : Env) (fs : FileStore) (dirs : List String)
    (h : (run env fs dirs).isOk = true) :
    (run env fs dirs).world.issued.map (fun c => c.SerialNumber) = [1, 2, 3, 4] ∧
    ((run env fs dirs).world.issued.map (fun c => c.SerialNumber)).Nodup := by
  obtain ⟨-, ho⟩ := run_ok h
  rw [issued_complete env _ ho]
  simp [Complete.rootCert, Complete.intermediateCert, Complete.serverCert,
    Complete.clientCert, x509.sign, rootTemplate, intermediateTemplate, serverTemplate,
    clientTemplate]

theorem serial_numbers_distinct_witness :
    (run Sample.calm Sample.noFiles []).isOk = true ∧
    Sample.fresh.issued.map (fun c => c.SerialNumber) = [1, 2, 3, 4] ∧
    (Sample.fresh.issued.map (fun c => c.SerialNumber)).Nodup :=
  ⟨by decide, serial_numbers_distinct Sample.calm Sample.noFiles [] (by decide)⟩

/-- C9. In a run that completes, there are four key-generation calls, of 4096 bits for the
root and the intermediate and of 2048 bits for the server and the client; each returns the
key pair of one entity and the four key pairs are pairwise distinct; each certificate `X.crt`
carries the public half of the key pair saved to `X.key`. -/
theorem each_entity_has_its_own_key (env : Env) (fs : FileStore) (dirs : List String)
    (h : (run env fs dirs).isOk = true) :
    ∃ rootKey intermediateKey serverKey clientKey : rsa.PrivateKey,
    ∃ root intermediate server client : x509.Signed,
      (run env fs dirs).world.generated = [rootKey, intermediateKey, serverKey, clientKey] ∧
      (run env fs dirs).world.keyRequests = [4096, 4096, 2048, 2048] ∧
      [rootKey, intermediateKey, serverKey, clientKey].map (fun k => k.PublicKey.bits) =
        [4096, 4096, 2048, 2048] ∧
      ([rootKey, intermediateKey, serverKey, clientKey].map (fun k => k.Public)).Nodup ∧
      (run env fs dirs).world.issued = [root, intermediate, server, client] ∧
      root.PublicKey = rootKey.Public ∧ intermediate.PublicKey = intermediateKey.Public ∧
      server.PublicKey = serverKey.Public ∧ client.PublicKey = clientKey.Public ∧
      (run env fs dirs).world.files "certs/rootCA.key" = some (env.pemEncode
        { Type_ := "RSA PRIVATE KEY", Bytes := x509.MarshalPKCS1PrivateKey rootKey }) ∧
      (run env fs dirs).world.files "certs/rootCA.crt" = some (env.pemEncode
        { Type_ := "CERTIFICATE", Bytes := .Certificate root }) ∧
      (run env fs dirs).world.files "certs/intermediateCA.key" = some (env.pemEncode
        { Type_ := "RSA PRIVATE KEY", Bytes := x509.MarshalPKCS1PrivateKey intermediateKey }) ∧
      (run env fs dirs).world.files "certs/intermediateCA.crt" = some (env.pemEncode
        { Type_ := "CERTIFICATE", Bytes := .Certificate intermediate }) ∧
      (run env fs dirs).world.files "certs/server.key" = some (env.pemEncode
        { Type_ := "RSA PRIVATE KEY", Bytes := x509.MarshalPKCS1PrivateKey serverKey }) ∧
      (run env fs dirs).world.files "certs/server.crt" = some (env.pemEncode
        { Type_ := "CERTIFICATE", Bytes := .Certificate server }) ∧
      (run env fs dirs).world.files "certs/client.key" = some (env.pemEncode
        { Type_ := "RSA PRIVATE KEY", Bytes := x509.MarshalPKCS1PrivateKey clientKey }) ∧
      (run env fs dirs).world.files "certs/client.crt" = some (env.pemEncode
        { Type_ := "CERTIFICATE", Bytes := .Certificate client }) := by
  obtain ⟨hf, ho⟩ := run_ok h
  refine ⟨Complete.rootKey, Complete.intermediateKey, Complete.serverKey, Complete.clientKey,
    Complete.rootCert env, Complete.intermediateCert env, Complete.serverCert env,
    Complete.clientCert env, ?_, ?_, ?_, ?_, issued_complete env _ ho, ?_⟩
  · simp [World.generated, ho, Complete.trace, issueTrace, chainTrace, Complete.rootKey,
      Complete.intermediateKey, Complete.serverKey, Complete.clientKey]
  · simp [World.keyRequests, ho, Complete.trace, issueTrace, chainTrace]
  · simp [Complete.rootKey, Complete.intermediateKey, Complete.serverKey, Complete.clientKey]
  · simp [Complete.rootKey, Complete.intermediateKey, Complete.serverKey, Complete.clientKey,
      rsa.PrivateKey.Public]
  · rw [hf]
    simp [Complete.files, Complete.pemCert, Complete.pemKey, Complete.rootCert,
      Complete.intermediateCert, Complete.serverCert, Complete.clientCert, x509.sign,
      rsa.PrivateKey.Public, x509.MarshalPKCS1PrivateKey]

theorem each_entity_has_its_own_key_witness :
    (run Sample.calm Sample.noFiles []).isOk = true ∧
    ∃ rootKey intermediateKey serverKey clientKey : rsa.PrivateKey,
    ∃ root intermediate server client : x509.Signed,
      Sample.fresh.generated = [rootKey, intermediateKey, serverKey, clientKey] ∧
      Sample.fresh.keyRequests = [4096, 4096, 2048, 2048] ∧
      [rootKey, intermediateKey, serverKey, clientKey].map (fun k => k.PublicKey.bits) =
        [4096, 4096, 2048, 2048] ∧
      ([rootKey, intermediateKey, serverKey, clientKey].map (fun k => k.Public)).Nodup ∧
      Sample.fresh.issued = [root, intermediate, server, client] ∧
      root.PublicKey = rootKey.Public ∧ intermediate.PublicKey = intermediateKey.Public ∧
      server.PublicKey = serverKey.Public ∧ client.PublicKey = clientKey.Public ∧
      Sample.fresh.files "certs/rootCA.key" = some (Sample.calm.pemEncode
        { Type_ := "RSA PRIVATE KEY", Bytes := x509.MarshalPKCS1PrivateKey rootKey }) ∧
      Sample.fresh.files "certs/rootCA.crt" = some (Sample.calm.pemEncode
        { Type_ := "CERTIFICATE", Bytes := .Certificate root }) ∧
      Sample.fresh.files "certs/intermediateCA.key" = some (Sample.calm.pemEncode
        { Type_ := "RSA PRIVATE KEY", Bytes := x509.MarshalPKCS1PrivateKey intermediateKey }) ∧
      Sample.fresh.files "certs/intermediateCA.crt" = some (Sample.calm.pemEncode
        { Type_ := "CERTIFICATE", Bytes := .Certificate intermediate }) ∧
      Sample.fresh.files "certs/server.key" = some (Sample.calm.pemEncode
        { Type_ := "RSA PRIVATE KEY", Bytes := x509.MarshalPKCS1PrivateKey serverKey }) ∧
      Sample.fresh.files "certs/server.crt" = some (Sample.calm.pemEncode
        { Type_ := "CERTIFICATE", Bytes := .Certificate server }) ∧
      Sample.fresh.files "certs/client.key" = some (Sample.calm.pemEncode
        { Type_ := "RSA PRIVATE KEY", Bytes := x509.MarshalPKCS1PrivateKey clientKey }) ∧
      Sample.fresh.files "certs/client.crt" = some (Sample.calm.pemEncode
        { Type_ := "CERTIFICATE", Bytes := .Certificate client }) :=
  ⟨by decide, each_entity_has_its_own_key Sample.calm Sample.noFiles [] (by decide)⟩

theorem createServerChain_read_fails (env : Env) (w : World)
    (h : w.files "certs/server.crt" = none ∨ env.fails w.ops.length = true ∨
      w.files "certs/intermediateCA.crt" = none ∨ env.fails (w.ops.length + 1) = true) :
    (createServerChain env w).isOk = false ∧ (createServerChain env w).world.files = w.files := by
  simp only [createServerChain, bind_apply, orFatalf, os.ReadFile, World.record]
  cases h1 : w.files "certs/server.crt" <;> cases hf1 : env.fails w.ops.length <;>
    cases h2 : w.files "certs/intermediateCA.crt" <;>
    cases hf2 : env.fails (w.ops.length + 1) <;>
    simp_all [Result.isOk, Result.world]

theorem createClientChain_read_fails (env : Env) (w : World)
    (h : w.files "certs/client.crt" = none ∨ env.fails w.ops.length = true ∨
      w.files "certs/intermediateCA.crt" = none ∨ env.fails (w.ops.length + 1) = true) :
    (createClientChain env w).isOk = false ∧ (createClientChain env w).world.files = w.files := by
  simp only [createClientChain, bind_apply, orFatalf, os.ReadFile, World.record]
  cases h1 : w.files "certs/client.crt" <;> cases hf1 : env.fails w.ops.length <;>
    cases h2 : w.files "certs/intermediateCA.crt" <;>
    cases hf2 : env.fails (w.ops.length + 1) <;>
    simp_all [Result.isOk, Result.world]

theorem createCAChain_read_fails (env : Env) (rootCert intermediateCert : x509.Certificate)
    (w : World)
    (h : w.files "certs/rootCA.crt" = none ∨ env.fails w.ops.length = true ∨
      w.files "certs/intermediateCA.crt" = none ∨ env.fails (w.ops.length + 1) = true) :
    (createCAChain env rootCert intermediateCert w).isOk = false ∧
    (createCAChain env rootCert intermediateCert w).world.files = w.files := by
  simp only [createCAChain, bind_apply, orFatalf, os.ReadFile, World.record]
  cases h1 : w.files "certs/rootCA.crt" <;> cases hf1 : env.fails w.ops.length <;>
    cases h2 : w.files "certs/intermediateCA.crt" <;>
    cases hf2 : env.fails (w.ops.length + 1) <;>
    simp_all [Result.isOk, Result.world]

theorem createServerChain_copies (env : Env) (w : World) (a b : Bytes)
    (ha : w.files "certs/server.crt" = some a) (hb : w.files "certs/intermediateCA.crt" = some b)
    (hf : ∀ i < 5, env.fails (w.ops.length + i) = false) :
    (createServerChain env w).isOk = true ∧
    (createServerChain env w).world.files = w.files.set "certs/server-chain.crt" (a ++ b) := by
  have h0 := hf 0 (by decide)
  have h1 := hf 1 (by decide)
  have h2 := hf 2 (by decide)
  have h3 := hf 3 (by decide)
  have h4 := hf 4 (by decide)
  simp only [Nat.add_zero] at h0
  have hrun : createServerChain env w = .ok ()
      ⟨w.files.set "certs/server-chain.crt" (a ++ b), w.dirs,
        w.ops ++ chainTrace "certs/server.crt" "certs/intermediateCA.crt" "certs/server-chain.crt" a b, w.log⟩ := by
    simp only [createServerChain, bind_eq_ok, orFatalf_eq_ok, ReadFile_eq_ok, Create_eq_ok,
      Write_eq_ok, pure_apply]
    simp [and_assoc, ha, hb, h0, h1, h2, h3, h4, chainTrace]
  rw [hrun]
  exact ⟨rfl, rfl⟩

theorem createClientChain_copies (env : Env) (w : World) (a b : Bytes)
    (ha : w.files "certs/client.crt" = some a) (hb : w.files "certs/intermediateCA.crt" = some b)
    (hf : ∀ i < 5, env.fails (w.ops.length + i) = false) :
    (createClientChain env w).isOk = true ∧
    (createClientChain env w).world.files = w.files.set "certs/client-chain.crt" (a ++ b) := by
  have h0 := hf 0 (by decide)
  have h1 := hf 1 (by decide)
  have h2 := hf 2 (by decide)
  have h3 := hf 3 (by decide)
  have h4 := hf 4 (by decide)
  simp only [Nat.add_zero] at h0
  have hrun : createClientChain env w = .ok ()
      ⟨w.files.set "certs/client-chain.crt" (a ++ b), w.dirs,
        w.ops ++ chainTrace "certs/client.crt" "certs/intermediateCA.crt" "certs/client-chain.crt" a b, w.log⟩ := by
    simp only [createClientChain, bind_eq_ok, orFatalf_eq_ok, ReadFile_eq_ok, Create_eq_ok,
      Write_eq_ok, pure_apply]
    simp [and_assoc, ha, hb, h0, h1, h2, h3, h4, chainTrace]
  rw [hrun]
  exact ⟨rfl, rfl⟩

theorem createCAChain_copies (env : Env) (rootCert intermediateCert : x509.Certificate) (w : World) (a b : Bytes)
    (ha : w.files "certs/rootCA.crt" = some a) (hb : w.files "certs/intermediateCA.crt" = some b)
    (hf : ∀ i < 5, env.fails (w.ops.length + i) = false) :
    (createCAChain env rootCert intermediateCert w).isOk = true ∧
    (createCAChain env rootCert intermediateCert w).world.files = w.files.set "certs/ca-chain.crt" (a ++ b) := by
  have h0 := hf 0 (by decide)
  have h1 := hf 1 (by decide)
  have h2 := hf 2 (by decide)
  have h3 := hf 3 (by decide)
  have h4 := hf 4 (by decide)
  simp only [Nat.add_zero] at h0
  have hrun : createCAChain env rootCert intermediateCert w = .ok ()
      ⟨w.files.set "certs/ca-chain.crt" (a ++ b), w.dirs,
        w.ops ++ chainTrace "certs/rootCA.crt" "certs/intermediateCA.crt" "certs/ca-chain.crt" a b, w.log⟩ := by
    simp only [createCAChain, bind_eq_ok, orFatalf_eq_ok, ReadFile_eq_ok, Create_eq_ok,
      Write_eq_ok, pure_apply]
    simp [and_assoc, ha, hb, h0, h1, h2, h3, h4, chainTrace]
  rw [hrun]
  exact ⟨rfl, rfl⟩

/-- C10. Chain assembly is atomic with respect to read failures: whenever one of the two
input files of `createServerChain`, `createClientChain` or `createCAChain` cannot be read
(it does not exist, or reading it returns an error), the function ends the process before it
creates or truncates its chain file, and the whole file store is as it was. -/
theorem chain_assembly_atomic_on_read_failure (env : Env) (w : World)
    (rootCert intermediateCert : x509.Certificate) :
    ((w.files "certs/server.crt" = none ∨ env.fails w.ops.length = true ∨
        w.files "certs/intermediateCA.crt" = none ∨ env.fails (w.ops.length + 1) = true) →
      (createServerChain env w).isOk = false ∧
      (createServerChain env w).world.files = w.files) ∧
    ((w.files "certs/client.crt" = none ∨ env.fails w.ops.length = true ∨
        w.files "certs/intermediateCA.crt" = none ∨ env.fails (w.ops.length + 1) = true) →
      (createClientChain env w).isOk = false ∧
      (createClientChain env w).world.files = w.files) ∧
    ((w.files "certs/rootCA.crt" = none ∨ env.fails w.ops.length = true ∨
        w.files "certs/intermediateCA.crt" = none ∨ env.fails (w.ops.length + 1) = true) →
      (createCAChain env rootCert intermediateCert w).isOk = false ∧
      (createCAChain env rootCert intermediateCert w).world.files = w.files) :=
  ⟨createServerChain_read_fails env w, createClientChain_read_fails env w,
    createCAChain_read_fails env rootCert intermediateCert w⟩

theorem chain_assembly_atomic_on_read_failure_witness :
    Sample.bare.files "certs/intermediateCA.crt" = none ∧
    ((createServerChain Sample.calm Sample.bare).isOk = false ∧
      (createServerChain Sample.calm Sample.bare).world.files = Sample.bare.files) ∧
    ((createClientChain Sample.calm Sample.bare).isOk = false ∧
      (createClientChain Sample.calm Sample.bare).world.files = Sample.bare.files) ∧
    ((createCAChain Sample.calm {} {} Sample.bare).isOk = false ∧
      (createCAChain Sample.calm {} {} Sample.bare).world.files = Sample.bare.files) :=
  ⟨by decide,
    (chain_assembly_atomic_on_read_failure Sample.calm Sample.bare {} {}).1
      (Or.inr (Or.inr (Or.inl (by decide)))),
    (chain_assembly_atomic_on_read_failure Sample.calm Sample.bare {} {}).2.1
      (Or.inr (Or.inr (Or.inl (by decide)))),
    (chain_assembly_atomic_on_read_failure Sample.calm Sample.bare {} {}).2.2
      (Or.inr (Or.inr (Or.inl (by decide))))⟩

/-- C7, as the specification states it, fails: with an `intermediateCA.crt` that holds no PEM
certificate (two stray bytes, or nothing at all) the three chain assemblies complete and
write the bytes they found after the first certificate. -/
theorem corrupted_intermediate_is_copied :
    containsPEMCertificate [88, 88] = false ∧
    (createServerChain Sample.calm (start (Sample.withIntermediate [88, 88]) [])).isOk = true ∧
    (createServerChain Sample.calm (start (Sample.withIntermediate [88, 88]) [])).world.files
      "certs/server-chain.crt" = some [67, 3, 88, 88] ∧
    (createClientChain Sample.calm (start (Sample.withIntermediate [88, 88]) [])).isOk = true ∧
    (createClientChain Sample.calm (start (Sample.withIntermediate [88, 88]) [])).world.files
      "certs/client-chain.crt" = some [67, 4, 88, 88] ∧
    (createCAChain Sample.calm {} {} (start (Sample.withIntermediate [88, 88]) [])).isOk
      = true ∧
    (createCAChain Sample.calm {} {} (start (Sample.withIntermediate [88, 88]) [])).world.files
      "certs/ca-chain.crt" = some [67, 1, 88, 88] ∧
    containsPEMCertificate [] = false ∧
    (createServerChain Sample.calm (start (Sample.withIntermediate []) [])).isOk = true ∧
    (createServerChain Sample.calm (start (Sample.withIntermediate []) [])).world.files
      "certs/server-chain.crt" = some [67, 3] := by
  decide

/-- C7, amended. If `certs/intermediateCA.crt` does not exist when chain assembly runs, each
of `createServerChain`, `createClientChain` and `createCAChain` ends the process with an
error and writes nothing: no chain file is created, emptied or partly written. If the file
can be read, its content is not checked: whatever bytes it holds, when the first certificate
file can be read too and no library call fails, each assembly completes and its chain file
holds exactly the bytes of the first file followed by those bytes, the rest of the store
unchanged. -/
theorem chain_assembly_copies_unchecked (env : Env) (w : World)
    (rootCert intermediateCert : x509.Certificate) :
    (w.files "certs/intermediateCA.crt" = none →
      ((createServerChain env w).isOk = false ∧
        (createServerChain env w).world.files = w.files) ∧
      ((createClientChain env w).isOk = false ∧
        (createClientChain env w).world.files = w.files) ∧
      ((createCAChain env rootCert intermediateCert w).isOk = false ∧
        (createCAChain env rootCert intermediateCert w).world.files = w.files)) ∧
    (∀ b : Bytes, w.files "certs/intermediateCA.crt" = some b →
      (∀ i < 5, env.fails (w.ops.length + i) = false) →
      (∀ a : Bytes, w.files "certs/server.crt" = some a →
        (createServerChain env w).isOk = true ∧
        (createServerChain env w).world.files =
          w.files.set "certs/server-chain.crt" (a ++ b)) ∧
      (∀ a : Bytes, w.files "certs/client.crt" = some a →
        (createClientChain env w).isOk = true ∧
        (createClientChain env w).world.files =
          w.files.set "certs/client-chain.crt" (a ++ b)) ∧
      (∀ a : Bytes, w.files "certs/rootCA.crt" = some a →
        (createCAChain env rootCert intermediateCert w).isOk = true ∧
        (createCAChain env rootCert intermediateCert w).world.files =
          w.files.set "certs/ca-chain.crt" (a ++ b))) := by
  refine ⟨fun h => ?_, fun b hb hf => ?_⟩
  · exact ⟨createServerChain_read_fails env w (Or.inr (Or.inr (Or.inl h))),
      createClientChain_read_fails env w (Or.inr (Or.inr (Or.inl h))),
      createCAChain_read_fails env rootCert intermediateCert w (Or.inr (Or.inr (Or.inl h)))⟩
  · exact ⟨fun a ha => createServerChain_copies env w a b ha hb hf,
      fun a ha => createClientChain_copies env w a b ha hb hf,
      fun a ha => createCAChain_copies env rootCert intermediateCert w a b ha hb hf⟩

theorem chain_assembly_copies_unchecked_witness :
    (Sample.bare.files "certs/intermediateCA.crt" = none ∧
      ((createServerChain Sample.calm Sample.bare).isOk = false ∧
        (createServerChain Sample.calm Sample.bare).world.files = Sample.bare.files) ∧
      ((createClientChain Sample.calm Sample.bare).isOk = false ∧
        (createClientChain Sample.calm Sample.bare).world.files = Sample.bare.files) ∧
      ((createCAChain Sample.calm {} {} Sample.bare).isOk = false ∧
        (createCAChain Sample.calm {} {} Sample.bare).world.files = Sample.bare.files)) ∧
    (Sample.stray.files "certs/intermediateCA.crt" = some [88, 88, 88] ∧
      containsPEMCertificate [88, 88, 88] = false ∧
      (∀ i < 5, Sample.calm.fails (Sample.stray.ops.length + i) = false) ∧
      Sample.stray.files "certs/server.crt" = some [67, 3] ∧
      Sample.stray.files "certs/client.crt" = some [67, 4] ∧
      Sample.stray.files "certs/rootCA.crt" = some [67, 1] ∧
      ((createServerChain Sample.calm Sample.stray).isOk = true ∧
        (createServerChain Sample.calm Sample.stray).world.files =
          Sample.stray.files.set "certs/server-chain.crt" ([67, 3] ++ [88, 88, 88])) ∧
      ((createClientChain Sample.calm Sample.stray).isOk = true ∧
        (createClientChain Sample.calm Sample.stray).world.files =
          Sample.stray.files.set "certs/client-chain.crt" ([67, 4] ++ [88, 88, 88])) ∧
      ((createCAChain Sample.calm {} {} Sample.stray).isOk = true ∧
        (createCAChain Sample.calm {} {} Sample.stray).world.files =
          Sample.stray.files.set "certs/ca-chain.crt" ([67, 1] ++ [88, 88, 88]))) :=
  ⟨⟨by decide,
      (chain_assembly_copies_unchecked Sample.calm Sample.bare {} {}).1 (by decide)⟩,
    by decide, by decide, by decide, by decide, by decide, by decide,
    ((chain_assembly_copies_unchecked Sample.calm Sample.stray {} {}).2 [88, 88, 88]
      (by decide) (by decide)).1 [67, 3] (by decide),
    ((chain_assembly_copies_unchecked Sample.calm Sample.stray {} {}).2 [88, 88, 88]
      (by decide) (by decide)).2.1 [67, 4] (by decide),
    ((chain_assembly_copies_unchecked Sample.calm Sample.stray {} {}).2 [88, 88, 88]
      (by decide) (by decide)).2.2 [67, 1] (by decide)⟩

/-- C2, evaluated on the code. The intermediate template sets `MaxPathLen` to 0 and leaves
`MaxPathLenZero` unset, which asks for no path-length constraint at all: whatever the issuer
and the keys, the certificate issued from it carries none and parses back with
`MaxPathLen = -1`. The root template asks for 2. In the run in which nothing fails the four
certificates carry: root 2, intermediate none, and the leaves no basicConstraints. -/
theorem intermediate_path_length_unconstrained :
    (∀ (now1 now2 : Time) (parent : x509.Certificate) (pub : rsa.PublicKey)
        (priv : rsa.PrivateKey),
      (intermediateTemplate now1 now2).MaxPathLen = 0 ∧
      (intermediateTemplate now1 now2).MaxPathLenZero = false ∧
      x509.pathLenConstraint (intermediateTemplate now1 now2) = none ∧
      (x509.sign (intermediateTemplate now1 now2) parent pub priv).BasicConstraints =
        some ⟨true, none⟩ ∧
      (x509.parsed (x509.sign (intermediateTemplate now1 now2) parent pub priv)).MaxPathLen
        = -1 ∧
      (x509.parsed (x509.sign (intermediateTemplate now1 now2) parent pub priv)).MaxPathLenZero
        = false ∧
      x509.pathLenConstraint (rootTemplate now1 now2) = some 2) ∧
    (run Sample.calm Sample.noFiles []).isOk = true ∧
    (run Sample.calm Sample.noFiles []).world.issued.map (fun c => c.BasicConstraints) =
      [some ⟨true, some 2⟩, some ⟨true, none⟩, none, none] := by
  refine ⟨?_, by decide, by decide⟩
  intro now1 now2 parent pub priv
  simp [intermediateTemplate, rootTemplate, x509.pathLenConstraint, x509.sign, x509.parsed,
    x509.basicConstraints]

/-- C4. The template of each role carries exactly the usage fields of its row of the role
policy table (key usage, extended key usage, IsCA, SAN), and the CA templates set
BasicConstraintsValid; in particular no leaf template sets `IsCA`, no CA template lists
`ServerAuth` or `ClientAuth`, and the client template does not list `ServerAuth`. The run in
which nothing fails signs exactly these four templates. -/
theorem templates_follow_role_policy (now1 now2 : Time) :
    usageOf (rootTemplate now1 now2) = rolePolicy .root ∧
    usageOf (intermediateTemplate now1 now2) = rolePolicy .intermediate ∧
    usageOf (serverTemplate now1 now2) = rolePolicy .server ∧
    usageOf (clientTemplate now1 now2) = rolePolicy .client ∧
    (rootTemplate now1 now2).BasicConstraintsValid = true ∧
    (intermediateTemplate now1 now2).BasicConstraintsValid = true ∧
    (serverTemplate now1 now2).IsCA = false ∧ (clientTemplate now1 now2).IsCA = false ∧
    (rootTemplate now1 now2).ExtKeyUsage = [] ∧
    (intermediateTemplate now1 now2).ExtKeyUsage = [] ∧
    x509.ExtKeyUsage.ExtKeyUsageServerAuth ∉ (clientTemplate now1 now2).ExtKeyUsage ∧
    (run Sample.calm Sample.noFiles []).world.templates.map usageOf =
      [rolePolicy .root, rolePolicy .intermediate, rolePolicy .server, rolePolicy .client] := by
  refine ⟨?_, ?_, ?_, ?_, rfl, rfl, rfl, rfl, rfl, rfl, ?_, ?_⟩
  · rfl
  · rfl
  · simp only [usageOf, serverTemplate, rolePolicy]
    decide
  · rfl
  · simp [clientTemplate]
  · decide

/-- C5, evaluated on the code. When `os.MkdirAll` fails the run goes on: the root key is
generated and the key file is opened; the run only ends when that call fails too. -/
theorem run_continues_after_failed_mkdir :
    (run (Sample.env [0, 2]) Sample.noFiles []).world.ops =
      [ .MkdirAll "certs" 0o755 false,
        .GenerateKey 4096 (some ⟨⟨1, 4096⟩⟩),
        .Create "certs/rootCA.key" false ] ∧
    (run (Sample.env [0, 2]) Sample.noFiles []).isOk = false := by
  decide

/-- C6, amended. If a step of the run fails, the run ends there and has written to no output
file of any later step: each such file is exactly as it was before the run, absent if it was
absent. Files left by an earlier run are not removed. -/
theorem later_outputs_untouched (env : Env) (w : World) (s : Step)
    (h : failedStep env w = some s) :
    (main env w).isOk = false ∧
    ∀ t : Step, s.order < t.order → ∀ name ∈ t.outputs,
      (main env w).world.files name = w.files name := by
  unfold failedStep at h
  simp only [main, bind_apply, call]
  have hf0 := MkdirAll_files env "certs" 0o755 w
  rcases hw0 : os.MkdirAll env "certs" 0o755 w with ⟨r, w0⟩
  rw [hw0] at h hf0
  simp only at h hf0 ⊢
  have t1 := touches_createRootCA env w0
  cases h1 : createRootCA env w0 with
  | fatal msg w1 =>
    rw [h1] at h
    simp only [Option.some.injEq] at h
    subst h
    refine ⟨rfl, fun t ht name hn => ?_⟩
    have := t1 name (outputs_disjoint _ t (by rintro rfl; simp [Step.order] at ht) name hn)
    rw [h1] at this
    simp only [Result.world] at this ⊢
    rw [this, hf0]
  | ok a w1 =>
    obtain ⟨rk, rc⟩ := a
    rw [h1] at h t1
    simp only [Result.world] at h t1 ⊢
    have t2 := touches_createIntermediateCA env rk rc w1
    cases h2 : createIntermediateCA env rk rc w1 with
    | fatal msg w2 =>
      rw [h2] at h t2
      simp only [Option.some.injEq] at h
      subst h
      refine ⟨rfl, fun t ht name hn => ?_⟩
      simp only [Result.world] at t2 ⊢
      rw [t2 name (outputs_disjoint _ t (by rintro rfl; simp [Step.order] at ht) name hn),
        t1 name (outputs_disjoint _ t (by rintro rfl; simp [Step.order] at ht) name hn), hf0]
    | ok a w2 =>
      obtain ⟨ik, ic⟩ := a
      rw [h2] at h t2
      simp only [Result.world] at h t2 ⊢
      have t3 := touches_createServerCertificate env ik ic w2
      cases h3 : createServerCertificate env ik ic w2 with
      | fatal msg w3 =>
        rw [h3] at h t3
        simp only [Option.some.injEq] at h
        subst h
        refine ⟨rfl, fun t ht name hn => ?_⟩
        simp only [Result.world] at t3 ⊢
        rw [t3 name (outputs_disjoint _ t (by rintro rfl; simp [Step.order] at ht) name hn),
          t2 name (outputs_disjoint _ t (by rintro rfl; simp [Step.order] at ht) name hn),
          t1 name (outputs_disjoint _ t (by rintro rfl; simp [Step.order] at ht) name hn), hf0]
      | ok u3 w3 =>
        rw [h3] at h t3
        simp only [Result.world] at h t3 ⊢
        have t4 := touches_createClientCertificate env ik ic w3
        cases h4 : createClientCertificate env ik ic w3 with
        | fatal msg w4 =>
          rw [h4] at h t4
          simp only [Option.some.injEq] at h
          subst h
          refine ⟨rfl, fun t ht name hn => ?_⟩
          simp only [Result.world] at t4 ⊢
          rw [t4 name (outputs_disjoint _ t (by rintro rfl; simp [Step.order] at ht) name hn),
            t3 name (outputs_disjoint _ t (by rintro rfl; simp [Step.order] at ht) name hn),
            t2 name (outputs_disjoint _ t (by rintro rfl; simp [Step.order] at ht) name hn),
            t1 name (outputs_disjoint _ t (by rintro rfl; simp [Step.order] at ht) name hn),
            hf0]
        | ok u4 w4 =>
          rw [h4] at h
          simp only at h ⊢
          cases h5 : createCAChain env rc ic w4 with
          | fatal msg w5 =>
            rw [h5] at h
            simp only [Option.some.injEq] at h
            subst h
            refine ⟨rfl, fun t ht name _ => ?_⟩
            cases t <;> simp [Step.order] at ht
          | ok u5 w5 =>
            rw [h5] at h
            simp at h

theorem later_outputs_untouched_witness :
    failedStep (Sample.env [15]) (start Sample.noFiles []) = some Step.intermediate ∧
    (main (Sample.env [15]) (start Sample.noFiles [])).isOk = false ∧
    ∀ t : Step, Step.intermediate.order < t.order → ∀ name ∈ t.outputs,
      (main (Sample.env [15]) (start Sample.noFiles [])).world.files name =
        (start Sample.noFiles []).files name :=
  ⟨by decide,
    later_outputs_untouched (Sample.env [15]) (start Sample.noFiles []) Step.intermediate
      (by decide)⟩

/-- C6, as the specification states it, fails: intermediate issuance fails, and the files an
earlier run left for the later steps are all still there after the run. -/
theorem later_outputs_survive_failed_run :
    failedStep (Sample.env [15]) (start Sample.oldFiles []) = some Step.intermediate ∧
    (run (Sample.env [15]) Sample.oldFiles []).isOk = false ∧
    (run (Sample.env [15]) Sample.oldFiles []).world.ops.getLast? =
      some (.CreateCertificate (intermediateTemplate ⟨1013, 0, 0, 0⟩ ⟨1014, 0, 0, 0⟩)
        (x509.parsed (Complete.rootCert (Sample.env [15]))) ⟨10, 4096⟩ ⟨⟨1, 4096⟩⟩ none) ∧
    ["certs/server.key", "certs/server.crt", "certs/server-chain.crt", "certs/client.key",
      "certs/client.crt", "certs/client-chain.crt", "certs/ca-chain.crt"].all
      (fun name => ((run (Sample.env [15]) Sample.oldFiles []).world.files name).isSome) = true := by
  decide

end GenerateCerts
